import Mathlib

/-!
Verification of the satellite-swarm coordination engine (swarm3d, `main.py`).

The development shallowly embeds the coordination logic of the source:
the per-agent state machine (`Satellite.step`), triad formation
(`form_triplet`), builder refuel (`refuel_builder`), the target allocator
(`building_step` with `check_collision_path`), the weak-agent aid loop,
rescue assignment (`prioritize_rescue`), forced restructuring and the
auxiliary controller operations.  Python objects mutated through aliased
references are modelled by an indexed arena (`SimState`): every Python
assignment becomes one state update reading the current state, so aliasing
behaves exactly as in the source.  Floating point is idealised as `ℝ`;
`random.*` draws are injected as explicit parameters (the source design
notes call for an injectable random source).
-/

open scoped Classical

noncomputable section

namespace Swarm

/-! ## Parameters (main.py lines 9-27) -/

def F_TOTAL : ℝ := 100
def T_LOW : ℝ := 30
def T_CRITICAL : ℝ := 15
def F_MAX_SHARE : ℝ := F_TOTAL / 3
def ICE_CONSUMPTION : ℝ := 3 / 100
def SPEED : ℝ := 2 / 5
def BOND_RADIUS : ℝ := 8
def ARRIVAL_RADIUS : ℝ := 5 / 2
def PRIORITY_WEIGHT : ℝ := 7 / 10
def DISTANCE_WEIGHT : ℝ := 3 / 10
def STATIONED_CHANCE : ℝ := 3 / 10
def GOAL_REVISION_INTERVAL : ℤ := 30
def MIN_RESCUE_FUEL : ℝ := 10

/-! ## Vectors (vpython `vector`) -/

structure Vec3 where
  x : ℝ
  y : ℝ
  z : ℝ

def vzero : Vec3 := ⟨0, 0, 0⟩

instance : Add Vec3 := ⟨fun a b => ⟨a.x + b.x, a.y + b.y, a.z + b.z⟩⟩

instance : Sub Vec3 := ⟨fun a b => ⟨a.x - b.x, a.y - b.y, a.z - b.z⟩⟩

/-- Scalar multiple, `c * v`. -/
def smul (c : ℝ) (v : Vec3) : Vec3 := ⟨c * v.x, c * v.y, c * v.z⟩

/-- vpython `mag`: Euclidean magnitude. -/
def mag (v : Vec3) : ℝ := Real.sqrt (v.x * v.x + v.y * v.y + v.z * v.z)

/-- vpython `norm`: unit vector in the direction of `v`
(the zero vector for `v = 0`, as in vpython). -/
def vnorm (v : Vec3) : Vec3 :=
  if mag v = 0 then vzero else ⟨v.x / mag v, v.y / mag v, v.z / mag v⟩

def BASE_POS : Vec3 := vzero

/-- Python float floor division `a // b`. -/
def fdiv (a b : ℝ) : ℝ := ((⌊a / b⌋ : ℤ) : ℝ)

/-! ## Data model -/

/-- `Satellite.status` string tag, as a closed enumeration. -/
inductive Status
  | free | builder | beacon | rescue | returning | weak | dead | stationed
deriving DecidableEq

/-- `Satellite.role` tag (meaningful for beacons). -/
inductive Role
  | commander | reserver
deriving DecidableEq

/-- A value of the overloaded `Satellite.target` field: a reference either to
another satellite (rescue victim) or a target point (builder goal). -/
inductive Ref
  | sat (i : ℕ)
  | tgt (i : ℕ)
deriving DecidableEq

/-- One satellite (the fields of `Satellite.__init__` that carry
coordination state; visuals are out of scope). -/
structure Satellite where
  pos : Vec3
  vel : Vec3
  fuel : ℝ
  status : Status
  role : Option Role
  target : Option Ref
  beacon_pair : Option (ℕ × ℕ)
  last_goal_revision : ℤ

/-- One entry of `target_spheres` (the coordination fields of the dict). -/
structure TargetPoint where
  pos : Vec3
  built : Bool
  builder : Option ℕ
  locked : Bool
  priority : ℝ
  build_progress : ℝ

def defaultSat : Satellite :=
  { pos := vzero, vel := vzero, fuel := 0, status := .free, role := none,
    target := none, beacon_pair := none, last_goal_revision := 0 }

def defaultTgt : TargetPoint :=
  { pos := vzero, built := false, builder := none, locked := false,
    priority := 0, build_progress := 0 }

/-- The mutable global state: the `satellites` and `target_spheres` arenas.
Object references are modelled as indices into these lists. -/
structure SimState where
  sats : List Satellite
  tgts : List TargetPoint

def SimState.getSat (st : SimState) (i : ℕ) : Satellite := st.sats.getD i defaultSat

def SimState.setSat (st : SimState) (i : ℕ) (s : Satellite) : SimState :=
  { st with sats := st.sats.set i s }

def SimState.getTgt (st : SimState) (i : ℕ) : TargetPoint := st.tgts.getD i defaultTgt

def SimState.setTgt (st : SimState) (i : ℕ) (t : TargetPoint) : SimState :=
  { st with tgts := st.tgts.set i t }

/-! ## Satellite movement (main.py lines 181-193, 227-231) -/

/-- `Satellite.move_to`. -/
def moveTo (s : Satellite) (tgtPos : Vec3) : Satellite :=
  let dir := tgtPos - s.pos
  if mag dir < 1 / 2 then s
  else { s with vel := vnorm dir, pos := s.pos + smul SPEED (vnorm dir) }

/-- `Satellite.random_roam` (velocity itself is unchanged). -/
def randomRoam (s : Satellite) : Satellite :=
  { s with pos := s.pos + smul SPEED (vnorm s.vel) }

/-- Boundary handling: any axis whose position exceeds 60 in absolute value
has its velocity component negated (main.py lines 228-231). -/
def reflect (s : Satellite) : Satellite :=
  let vx := if |s.pos.x| > 60 then -s.vel.x else s.vel.x
  let vy := if |s.pos.y| > 60 then -s.vel.y else s.vel.y
  let vz := if |s.pos.z| > 60 then -s.vel.z else s.vel.z
  { s with vel := ⟨vx, vy, vz⟩ }

/-! ## `Satellite.step` (main.py lines 195-282)

`rvel i` is the fresh random velocity drawn for satellite `i` when it is
reset or revived (an injected random source). -/

/-- The status-dependent movement block of `Satellite.step`
(main.py lines 216-225). -/
def moveStep (st : SimState) (i : ℕ) : Satellite :=
  let s := st.getSat i
  if s.status = .builder then
    match s.beacon_pair with
    | some (b1, b2) =>
        moveTo s (smul (1 / 2) ((st.getSat b1).pos + (st.getSat b2).pos))
    | none => s
  else if s.status = .rescue then
    match s.target with
    | some (.sat j) => moveTo s ((st.getSat j).pos)
    | _ => s
  else if s.status = .returning ∨ s.status = .weak then
    moveTo s BASE_POS
  else if s.status = .free then
    randomRoam s
  else s

/-- Fuel consumption, the dead/weak transitions and the returning-to-base
reset of `Satellite.step` (main.py lines 233-254), applied to the moved and
boundary-reflected satellite. -/
def drainTrans (rvel : ℕ → Vec3) (i : ℕ) (s2 : Satellite) : Satellite :=
  let s3 :=
    if s2.status ≠ .beacon ∧ s2.status ≠ .stationed then
      { s2 with fuel := s2.fuel - ICE_CONSUMPTION }
    else s2
  let s4 :=
    if s3.fuel ≤ 0 ∧ s3.status ≠ .dead then
      { s3 with status := .dead, vel := vzero }
    else if s3.status = .free ∧ s3.fuel < T_CRITICAL then
      { s3 with status := .weak }
    else s3
  if s4.status = .returning ∧ mag (s4.pos - BASE_POS) < 3 then
    { s4 with fuel := F_TOTAL, status := .free, vel := rvel i,
              role := none, beacon_pair := none }
  else s4

/-- The rescue-arrival block of `Satellite.step` (main.py lines 257-269):
`s5` is the stepping satellite after movement, drain and transitions; the
victim is read from and written back to the arena. -/
def rescuePhase (rvel : ℕ → Vec3) (i : ℕ) (st : SimState) (s5 : Satellite) :
    SimState :=
  match s5.target with
  | some (.sat j) =>
      if s5.status = .rescue ∧ mag (s5.pos - (st.getSat j).pos) < 3 then
        if s5.fuel ≥ MIN_RESCUE_FUEL then
          let v := st.getSat j
          let transfer :=
            min (min MIN_RESCUE_FUEL (fdiv s5.fuel 2)) (F_TOTAL - v.fuel)
          if 0 < transfer then
            let v1 := { v with fuel := min (v.fuel + transfer) F_TOTAL }
            let v2 :=
              if T_CRITICAL < v1.fuel then
                { v1 with status := .free, vel := rvel j }
              else v1
            let s6 := { s5 with fuel := s5.fuel - transfer,
                                status := .returning, target := none }
            (st.setSat j v2).setSat i s6
          else st.setSat i s5
        else st.setSat i s5
      else st.setSat i s5
  | _ => st.setSat i s5

def stepSat (rvel : ℕ → Vec3) (i : ℕ) (st : SimState) : SimState :=
  let s := st.getSat i
  if s.status = .stationed then
    -- stationed: hold position, minimal drain
    let s1 := { s with fuel := s.fuel - ICE_CONSUMPTION * (1 / 100) }
    let s2 := if s1.fuel ≤ 0 then { s1 with status := .dead } else s1
    st.setSat i s2
  else if s.status = .beacon then
    -- beacon: fixed, minimal drain
    let s1 := { s with fuel := s.fuel - ICE_CONSUMPTION * (2 / 100) }
    let s2 := if s1.fuel ≤ 0 then { s1 with status := .dead } else s1
    st.setSat i s2
  else
    rescuePhase rvel i st (drainTrans rvel i (reflect (moveStep st i)))

/-- The per-tick `for s in satellites: s.step()` loop. -/
def stepAll (rvel : ℕ → Vec3) (st : SimState) : SimState :=
  (List.range st.sats.length).foldl (fun acc i => stepSat rvel i acc) st

/-- The transfer computed in the rescue-arrival branch of `Satellite.step`,
expressed on the pre-step state: the rescuer's fuel there has already been
drained by `ICE_CONSUMPTION`. -/
def rescueTransfer (st : SimState) (i j : ℕ) : ℝ :=
  min (min MIN_RESCUE_FUEL (fdiv ((st.getSat i).fuel - ICE_CONSUMPTION) 2))
    (F_TOTAL - (st.getSat j).fuel)

/-! ## List helpers (Python comprehensions / `min(..., key=...)`) -/

/-- A Python list comprehension `[a for a in l if p a]`. -/
def filterP {α : Type} (p : α → Prop) : List α → List α
  | [] => []
  | a :: l => if p a then a :: filterP p l else filterP p l

/-- Inner loop of Python `min(l, key=f)`: the first element attaining the
minimum key (later elements replace the current best only when strictly
smaller). -/
def minByGo (f : α → ℝ) (best : α) : List α → α
  | [] => best
  | b :: bs => minByGo f (if f b < f best then b else best) bs

/-- Python `min(l, key=f)` (`none` on the empty list, which raises there). -/
def argminBy (f : α → ℝ) : List α → Option α
  | [] => none
  | a :: l => some (minByGo f a l)

/-! ## Triplet formation (`form_triplet`, main.py lines 442-486)

Random draws are injected: `tpick` selects the unbuilt target area
(`random.choice(unbuilt_targets)`), `spick` selects the seed
(`random.choice(free)`); both are reduced modulo the list length so that
every draw of the source corresponds to some parameter value. -/

/-- `free = [s for s in satellites if s.status == "free" and s.fuel >= T_LOW]`,
as a list of arena indices. -/
def eligibleFree (st : SimState) : List ℕ :=
  filterP (fun i => (st.getSat i).status = .free ∧ (st.getSat i).fuel ≥ T_LOW)
    (List.range st.sats.length)

/-- The pool the seed is drawn from: when unbuilt targets exist and at least
three eligible agents lie within `bond_radius * 2` of a randomly chosen
unbuilt target's position, the eligible pool is narrowed to those agents
(main.py lines 447-455). -/
def ftPool (st : SimState) (bondRadius : ℝ) (tpick : ℕ) : List ℕ :=
  let free := eligibleFree st
  let unbuiltT := filterP (fun t => (st.getTgt t).built = false)
    (List.range st.tgts.length)
  if unbuiltT = [] then free
  else
    let area := (st.getTgt (unbuiltT.getD (tpick % unbuiltT.length) 0)).pos
    let nearTarget :=
      filterP (fun i => mag ((st.getSat i).pos - area) < bondRadius * 2) free
    if nearTarget.length ≥ 3 then nearTarget else free

/-- The seed `s1 = random.choice(free)`. -/
def ftSeed (st : SimState) (bondRadius : ℝ) (tpick spick : ℕ) : ℕ :=
  let pool := ftPool st bondRadius tpick
  pool.getD (spick % pool.length) 0

/-- `neighbors = [s for s in free if s is not s1 and mag(s.pos - s1.pos) <= bond_radius]`. -/
def ftNeighbors (st : SimState) (bondRadius : ℝ) (tpick spick : ℕ) : List ℕ :=
  let s1 := ftSeed st bondRadius tpick spick
  filterP (fun i => i ≠ s1 ∧
      mag ((st.getSat i).pos - (st.getSat s1).pos) ≤ bondRadius)
    (ftPool st bondRadius tpick)

/-- `neighbors.sort(key=lambda s: mag(s.pos - s1.pos))` — Python's sort is
stable, so insertion sort on `≤` of the key is extensionally identical. -/
def ftSorted (st : SimState) (bondRadius : ℝ) (tpick spick : ℕ) : List ℕ :=
  let s1 := ftSeed st bondRadius tpick spick
  (ftNeighbors st bondRadius tpick spick).insertionSort
    (fun a b => mag ((st.getSat a).pos - (st.getSat s1).pos) ≤
                mag ((st.getSat b).pos - (st.getSat s1).pos))

/-- The state-update chain of a successful `form_triplet`, abstracted over
the three chosen indices (lines 465-481: status writes, role assignment by
fuel comparison, beacon velocity zeroing, `beacon_pair` link, formation
charge `T_LOW * 0.2` on each participant). -/
def ftApply (st : SimState) (s1 s2 s3 : ℕ) : SimState :=
  let stA := st.setSat s1 { st.getSat s1 with status := .builder }
  let stB := stA.setSat s2 { stA.getSat s2 with status := .beacon }
  let stC := stB.setSat s3 { stB.getSat s3 with status := .beacon }
  let stD :=
    if (stC.getSat s2).fuel < (stC.getSat s3).fuel then
      let u := stC.setSat s2 { stC.getSat s2 with role := some .commander }
      u.setSat s3 { u.getSat s3 with role := some .reserver }
    else
      let u := stC.setSat s2 { stC.getSat s2 with role := some .reserver }
      u.setSat s3 { u.getSat s3 with role := some .commander }
  let stE := stD.setSat s2 { stD.getSat s2 with vel := vzero }
  let stF := stE.setSat s3 { stE.getSat s3 with vel := vzero }
  let stG := stF.setSat s1 { stF.getSat s1 with beacon_pair := some (s2, s3) }
  -- for s in triplet: s.fuel -= T_LOW * 0.2
  let stH := stG.setSat s1
    { stG.getSat s1 with fuel := (stG.getSat s1).fuel - T_LOW * (2 / 10) }
  let stI := stH.setSat s2
    { stH.getSat s2 with fuel := (stH.getSat s2).fuel - T_LOW * (2 / 10) }
  let stJ := stI.setSat s3
    { stI.getSat s3 with fuel := (stI.getSat s3).fuel - T_LOW * (2 / 10) }
  stJ

/-- `form_triplet(bond_radius)`: returns the updated state and the formed
triplet `(s1, s2, s3)` (`none` when formation fails, state unchanged). -/
def formTriplet (st : SimState) (bondRadius : ℝ) (tpick spick : ℕ) :
    SimState × Option (ℕ × ℕ × ℕ) :=
  let free := eligibleFree st
  if free.length < 3 then (st, none)
  else
    let s1 := ftSeed st bondRadius tpick spick
    let neighbors := ftNeighbors st bondRadius tpick spick
    if neighbors.length < 2 then (st, none)
    else
      let sorted := ftSorted st bondRadius tpick spick
      (ftApply st s1 (sorted.getD 0 0) (sorted.getD 1 0),
        some (s1, sorted.getD 0 0, sorted.getD 1 0))

/-! ## Builder refuel (`refuel_builder`, main.py lines 489-510) -/

/-- `donor = commander if commander.fuel > reserver.fuel else reserver`:
the beacon of the pair with more fuel (ties favour the reserver). -/
def donorOf (st : SimState) (cIdx rIdx : ℕ) : ℕ :=
  if (st.getSat cIdx).fuel > (st.getSat rIdx).fuel then cIdx else rIdx

/-- `transfer = min(F_MAX_SHARE, donor.fuel * 0.5, donor.fuel - T_CRITICAL)`. -/
def shareAmount (st : SimState) (donor : ℕ) : ℝ :=
  min (min F_MAX_SHARE ((st.getSat donor).fuel * (1 / 2)))
    ((st.getSat donor).fuel - T_CRITICAL)

/-- `refuel_builder(builder)`: returns the updated state and the success
flag, guarded by `donor.fuel > F_TOTAL * 0.33`. -/
def refuelBuilder (st : SimState) (bIdx : ℕ) : SimState × Bool :=
  match (st.getSat bIdx).beacon_pair with
  | none => (st, false)
  | some (cIdx, rIdx) =>
    let donor := donorOf st cIdx rIdx
    if (st.getSat donor).fuel > F_TOTAL * (33 / 100) then
      let transfer := shareAmount st donor
      if transfer ≤ 0 then (st, false)
      else
        let st1 := st.setSat donor
          { st.getSat donor with fuel := (st.getSat donor).fuel - transfer }
        let st2 := st1.setSat bIdx
          { st1.getSat bIdx with
            fuel := min ((st1.getSat bIdx).fuel + transfer) F_TOTAL }
        -- role swap when the commander ends up with less fuel
        let st3 :=
          if (st2.getSat cIdx).fuel < (st2.getSat rIdx).fuel then
            let cr := (st2.getSat cIdx).role
            let rr := (st2.getSat rIdx).role
            let u := st2.setSat cIdx { st2.getSat cIdx with role := rr }
            u.setSat rIdx { u.getSat rIdx with role := cr }
          else st2
        (st3, true)
    else (st, false)

/-! ## Collision check (`check_collision_path`, main.py lines 513-522) -/

/-- The scan of the `for other in satellites` loop, with `k` the index of the
head of the remaining list. -/
def collisionScan (st : SimState) (sIdx tIdx : ℕ) (myDist : ℝ) :
    ℕ → List Satellite → Prop
  | _, [] => False
  | k, o :: rest =>
      (o.status = .builder ∧ k ≠ sIdx ∧ o.target = some (.tgt tIdx) ∧
        mag (o.pos - (st.getTgt tIdx).pos) < myDist) ∨
      collisionScan st sIdx tIdx myDist (k + 1) rest

/-- `check_collision_path(s, target_dict)`: true when another builder is
already targeting this point from a strictly shorter distance. -/
def checkCollisionPath (st : SimState) (sIdx tIdx : ℕ) : Prop :=
  collisionScan st sIdx tIdx
    (mag ((st.getSat sIdx).pos - (st.getTgt tIdx).pos)) 0 st.sats

/-! ## Building step (`building_step`, main.py lines 525-629) -/

/-- Lock sweep: clean up any locked targets whose owner is gone or no longer
a builder (main.py lines 527-530). -/
def sweepLocks (st : SimState) : SimState :=
  { st with tgts := st.tgts.map fun t =>
      if t.locked ∧ (match t.builder with
                     | none => True
                     | some j => (st.getSat j).status ≠ .builder) then
        { t with locked := false, builder := none }
      else t }

/-- Free both bonded beacons of builder `i` (status `free`, role cleared,
fresh random velocity) and clear the bond; used by several release paths. -/
def freeBeaconPair (bvel : ℕ → Vec3) (i : ℕ) (st : SimState) : SimState :=
  match (st.getSat i).beacon_pair with
  | some (b1, b2) =>
      let u1 := st.setSat b1
        { st.getSat b1 with status := .free, role := none, vel := bvel b1 }
      let u2 := u1.setSat b2
        { u1.getSat b2 with status := .free, role := none, vel := bvel b2 }
      u2.setSat i { u2.getSat i with beacon_pair := none }
  | none => st

/-- `score(t)` used to rank candidate targets for builder `s`
(main.py lines 560-562). -/
def scoreOf (st : SimState) (sIdx tIdx : ℕ) : ℝ :=
  (st.getTgt tIdx).priority * PRIORITY_WEIGHT -
    mag ((st.getTgt tIdx).pos - (st.getSat sIdx).pos) * DISTANCE_WEIGHT

/-- The `for candidate in unbuilt` loop: first candidate that does not fail
the collision check. -/
def firstUncontested (st : SimState) (sIdx : ℕ) : List ℕ → Option ℕ
  | [] => none
  | c :: cs =>
      if checkCollisionPath st sIdx c then firstUncontested st sIdx cs
      else some c

/-- Candidate ranking: `unbuilt.sort(key=score, reverse=True)` — stable
descending sort by score. -/
def rankedCandidates (st : SimState) (sIdx : ℕ) (unbuilt : List ℕ) : List ℕ :=
  unbuilt.insertionSort (fun a b => scoreOf st sIdx b ≤ scoreOf st sIdx a)

/-- The construction-complete block (main.py lines 593-629): mark built,
charge the construction cost, possibly park the builder, then the
post-completion refuel check. -/
def completeTarget (stationDraw : ℕ → ℝ) (bvel : ℕ → Vec3) (i tIdx : ℕ)
    (st : SimState) : SimState :=
  let st3 := st.setTgt tIdx
    { st.getTgt tIdx with built := true, locked := false, builder := none }
  let st4 := st3.setSat i
    { st3.getSat i with fuel := (st3.getSat i).fuel - 5, target := none }
  -- station builder or continue building
  let st5 :=
    if stationDraw i < STATIONED_CHANCE then
      let u := st4.setSat i
        { st4.getSat i with
            status := .stationed, pos := (st4.getTgt tIdx).pos,
            vel := vzero }
      freeBeaconPair bvel i u
    else st4
  -- refuel check
  if (st5.getSat i).fuel < T_LOW ∧ (st5.getSat i).status ≠ .stationed then
    let r := refuelBuilder st5 i
    if r.2 = true then r.1
    else
      let u := r.1.setSat i { (r.1).getSat i with status := .returning }
      freeBeaconPair bvel i u
  else st5

/-- Movement toward the chosen target and the construction logic that
follows it (main.py lines 584-629); `tIdx` is the builder's target.
`stationDraw i` is the `random.random()` draw for the parking branch. -/
def afterTarget (stationDraw : ℕ → ℝ) (bvel : ℕ → Vec3) (i tIdx : ℕ)
    (st : SimState) : SimState :=
  let st1 := st.setSat i (moveTo (st.getSat i) (st.getTgt tIdx).pos)
  let dist := mag ((st1.getSat i).pos - (st1.getTgt tIdx).pos)
  if dist < ARRIVAL_RADIUS then
    let st2 := st1.setTgt tIdx
      { st1.getTgt tIdx with
        build_progress := (st1.getTgt tIdx).build_progress + 5 / 100 }
    if (st2.getTgt tIdx).build_progress ≥ 1 then
      completeTarget stationDraw bvel i tIdx st2
    else st2
  else st1

/-- The keep-current-target test of `building_step` (main.py lines 535-539):
the builder's target, when it is still valid, owned, locked and recent. -/
def keepTarget (frame : ℤ) (st : SimState) (i : ℕ) : Option ℕ :=
  match (st.getSat i).target with
  | some (.tgt j) =>
      if ¬(st.getTgt j).built = true ∧ (st.getTgt j).builder = some i ∧
          (st.getTgt j).locked = true ∧
          frame - (st.getSat i).last_goal_revision < GOAL_REVISION_INTERVAL then
        some j
      else none
  | _ => none

/-- `unbuilt = [t for t in target_spheres if not built and not locked]`. -/
def unbuiltList (st : SimState) : List ℕ :=
  filterP
    (fun t => ¬(st.getTgt t).built = true ∧ ¬(st.getTgt t).locked = true)
    (List.range st.tgts.length)

/-- The candidate finally selected by builder `i`: the best-scored
uncontested candidate, falling back to the top candidate when all are
contested (main.py lines 567-576). -/
def chooseTarget (st : SimState) (i : ℕ) : ℕ :=
  let sorted := rankedCandidates st i (unbuiltList st)
  match firstUncontested st i sorted with
  | some c => c
  | none => sorted.getD 0 0

/-- Lock target `c` to builder `i` and record it as the builder's goal
(main.py lines 578-582). -/
def lockTarget (frame : ℤ) (st : SimState) (i c : ℕ) : SimState :=
  let st1 := st.setTgt c { st.getTgt c with locked := true, builder := some i }
  st1.setSat i
    { st1.getSat i with target := some (.tgt c), last_goal_revision := frame }

/-- The no-targets-left branch (main.py lines 545-557): return to base and
free the beacons. -/
def releaseNoTargets (bvel : ℕ → Vec3) (i : ℕ) (st : SimState) : SimState :=
  let u1 := st.setSat i { st.getSat i with status := .returning }
  let u2 := freeBeaconPair bvel i u1
  u2.setSat i { u2.getSat i with beacon_pair := none, target := none }

/-- The per-builder body of the `for s in satellites` loop of
`building_step` (main.py lines 532-629). -/
def buildSat (frame : ℤ) (stationDraw : ℕ → ℝ) (bvel : ℕ → Vec3) (i : ℕ)
    (st : SimState) : SimState :=
  let s := st.getSat i
  if s.status = .builder ∧ s.beacon_pair ≠ none then
    match keepTarget frame st i with
    | some j => afterTarget stationDraw bvel i j st
    | none =>
      if unbuiltList st = [] then releaseNoTargets bvel i st
      else
        afterTarget stationDraw bvel i (chooseTarget st i)
          (lockTarget frame st i (chooseTarget st i))
  else st

/-- `building_step(frame)`. -/
def buildingStep (frame : ℤ) (stationDraw : ℕ → ℝ) (bvel : ℕ → Vec3)
    (st : SimState) : SimState :=
  let st1 := sweepLocks st
  (List.range st1.sats.length).foldl
    (fun acc i => buildSat frame stationDraw bvel i acc) st1

/-! ## Weak-agent aid (main loop, main.py lines 678-690) -/

/-- One iteration of the `for w in weak` loop. -/
def weakAidOne (wIdx : ℕ) (st : SimState) : SimState :=
  let reservers := filterP
    (fun j => (st.getSat j).status = .beacon ∧
      (st.getSat j).role = some .reserver ∧
      (st.getSat j).fuel > F_TOTAL * (33 / 100))
    (List.range st.sats.length)
  match argminBy (fun r => mag ((st.getSat r).pos - (st.getSat wIdx).pos))
      reservers with
  | none => st
  | some nearest =>
      if mag ((st.getSat wIdx).pos - (st.getSat nearest).pos) < 3 then
        let transfer := min F_MAX_SHARE ((st.getSat nearest).fuel - T_CRITICAL)
        if 0 < transfer then
          let st1 := st.setSat nearest
            { st.getSat nearest with fuel := (st.getSat nearest).fuel - transfer }
          st1.setSat wIdx
            { st1.getSat wIdx with
              fuel := min ((st1.getSat wIdx).fuel + transfer) F_TOTAL,
              status := .free }
        else st
      else st

/-- The weak-satellite aid pass: the `weak` list is computed before the loop,
the reserver search is re-done per victim on the current state. -/
def weakAid (st : SimState) : SimState :=
  (filterP (fun i => (st.getSat i).status = .weak)
      (List.range st.sats.length)).foldl
    (fun acc w => weakAidOne w acc) st

/-! ## Alpha controller operations (main.py lines 391-439, 369-377) -/

/-- `AlphaAI.force_restructure`: each sampled builder is disbanded — its
beacons are freed and it returns to base.  `samp` stands for
`random.sample(builders, min(2, len(builders)))`. -/
def forceRestructure (bvel : ℕ → Vec3) (samp : List ℕ) (st : SimState) :
    SimState :=
  let builders := filterP (fun i => (st.getSat i).status = .builder)
    (List.range st.sats.length)
  if builders = [] then st
  else
    samp.foldl
      (fun acc b =>
        let acc1 :=
          match (acc.getSat b).beacon_pair with
          | some (c, r) =>
              let u1 := acc.setSat c
                { acc.getSat c with status := .free, role := none, vel := bvel c }
              u1.setSat r
                { u1.getSat r with status := .free, role := none, vel := bvel r }
          | none => acc
        acc1.setSat b
          { acc1.getSat b with status := .returning, beacon_pair := none })
      st

/-- The victim loop of `AlphaAI.prioritize_rescue`: assign the nearest
eligible free satellite to each dead victim, removing it from the pool. -/
def rescueAssign : List ℕ → List ℕ → SimState → SimState
  | [], _, st => st
  | _ :: _, [], st => st
  | v :: vs, freeL, st =>
      match argminBy (fun r => mag ((st.getSat r).pos - (st.getSat v).pos))
          freeL with
      | none => st
      | some rescuer =>
          let st1 := st.setSat rescuer
            { st.getSat rescuer with
                status := .rescue, target := some (.sat v) }
          rescueAssign vs (freeL.erase rescuer) st1

/-- `AlphaAI.prioritize_rescue` (main.py lines 413-423). -/
def prioritizeRescue (st : SimState) : SimState :=
  let deadL := filterP (fun i => (st.getSat i).status = .dead)
    (List.range st.sats.length)
  let freeL := filterP
    (fun i => (st.getSat i).status = .free ∧ (st.getSat i).fuel > T_LOW)
    (List.range st.sats.length)
  rescueAssign (deadL.take (min 3 deadL.length)) freeL st

/-- Reactivation of stationed satellites (main.py lines 371-377). -/
def reactivateStationed (bvel : ℕ → Vec3) (st : SimState) : SimState :=
  let stationedL := filterP (fun i => (st.getSat i).status = .stationed)
    (List.range st.sats.length)
  (stationedL.take (min 3 stationedL.length)).foldl
    (fun acc i =>
      acc.setSat i { acc.getSat i with status := .free, vel := bvel i })
    st

/-- `AlphaAI.pull_toward_targets` (main.py lines 425-439); `shuffledFree`
stands for the shuffled free list. -/
def pullTowardTargets (shuffledFree : List ℕ) (st : SimState) : SimState :=
  let unbuilt := filterP
    (fun t => ¬(st.getTgt t).built = true ∧ ¬(st.getTgt t).locked = true)
    (List.range st.tgts.length)
  if unbuilt = [] then st
  else
    let sorted := unbuilt.insertionSort
      (fun a b => (st.getTgt b).priority ≤ (st.getTgt a).priority)
    ((shuffledFree.take (min shuffledFree.length sorted.length)).zip
        sorted).foldl
      (fun acc p =>
        let dirv := vnorm ((st.getTgt p.2).pos - (acc.getSat p.1).pos)
        acc.setSat p.1
          { acc.getSat p.1 with
            vel := smul (6 / 10) (acc.getSat p.1).vel + smul (4 / 10) dirv })
      st

/-! ## Stated invariants -/

/-- Spec fuel invariant, upper half: every satellite's fuel is at most
`F_TOTAL`. -/
def FuelUB (st : SimState) : Prop := ∀ i, (st.getSat i).fuel ≤ F_TOTAL

/-- Spec beacon invariant: every beacon has zero velocity and a role. -/
def BeaconOK (st : SimState) : Prop :=
  ∀ i, (st.getSat i).status = .beacon →
    (st.getSat i).vel = vzero ∧ (st.getSat i).role ≠ none

/-- Spec lock invariant, the half that holds: a locked target has an owner. -/
def LockOwned (st : SimState) : Prop :=
  ∀ t, (st.getTgt t).locked = true → (st.getTgt t).builder ≠ none

/-- The per-tick fuel drain of `Satellite.step` as a function of status. -/
def drainRate (s : Status) : ℝ :=
  if s = .stationed then ICE_CONSUMPTION * (1 / 100)
  else if s = .beacon then ICE_CONSUMPTION * (2 / 100)
  else ICE_CONSUMPTION

/-! ## Concrete states for scenario evaluation -/

/-- A roaming satellite template. -/
def freeSat (p : Vec3) (f : ℝ) : Satellite :=
  { pos := p, vel := vzero, fuel := f, status := .free, role := none,
    target := none, beacon_pair := none, last_goal_revision := 0 }

/-- A builder template. -/
def builderSat (p : Vec3) (pair : ℕ × ℕ) (tg : Option Ref) (f : ℝ) : Satellite :=
  { pos := p, vel := vzero, fuel := f, status := .builder, role := none,
    target := tg, beacon_pair := some pair, last_goal_revision := 0 }

/-- A beacon template. -/
def beaconSat (p : Vec3) (r : Role) (f : ℝ) : Satellite :=
  { pos := p, vel := vzero, fuel := f, status := .beacon, role := some r,
    target := none, beacon_pair := none, last_goal_revision := 0 }

/-- A single drained dead satellite. -/
def CS1 : SimState :=
  { sats := [{ freeSat vzero 0 with status := .dead }], tgts := [] }

/-- A small healthy state (one beacon, one free agent) for witnesses. -/
def CW : SimState :=
  { sats := [beaconSat vzero .commander 50, freeSat vzero 50], tgts := [] }

/-- A builder holding a stale locked target 0 whose goal revision is due,
with a second unbuilt unlocked target 1 available. -/
def CS2 : SimState :=
  { sats := [builderSat vzero (1, 2) (some (.tgt 0)) 50,
             beaconSat vzero .commander 50, beaconSat vzero .reserver 50],
    tgts := [{ pos := ⟨5, 0, 0⟩, built := false, builder := some 0,
               locked := true, priority := 0, build_progress := 0 },
             { pos := vzero, built := false, builder := none,
               locked := false, priority := 1, build_progress := 0 }] }

/-- `CS2` after builder 0 locked target 1 (goal revision). -/
def CS2a : SimState :=
  { sats := [{ pos := vzero, vel := vzero, fuel := 50, status := .builder,
               role := none, target := some (.tgt 1),
               beacon_pair := some (1, 2), last_goal_revision := 30 },
             beaconSat vzero .commander 50, beaconSat vzero .reserver 50],
    tgts := [{ pos := ⟨5, 0, 0⟩, built := false, builder := some 0,
               locked := true, priority := 0, build_progress := 0 },
             { pos := vzero, built := false, builder := some 0,
               locked := true, priority := 1, build_progress := 0 }] }

/-- `CS2a` after the arrival progress tick on target 1. -/
def CS2b : SimState :=
  { sats := CS2a.sats,
    tgts := [{ pos := ⟨5, 0, 0⟩, built := false, builder := some 0,
               locked := true, priority := 0, build_progress := 0 },
             { pos := vzero, built := false, builder := some 0,
               locked := true, priority := 1, build_progress := 0 + 5 / 100 }] }

/-- Four eligible free agents on the x-axis and one unbuilt target at the
origin: agent 1 is the seed's nearest eligible neighbour but lies outside
twice the bond radius of the target area, so the pool refinement drops it. -/
def CS3 : SimState :=
  { sats := [freeSat ⟨15, 0, 0⟩ 50, freeSat ⟨19, 0, 0⟩ 50,
             freeSat ⟨10, 0, 0⟩ 50, freeSat ⟨9, 0, 0⟩ 50],
    tgts := [{ pos := vzero, built := false, builder := none,
               locked := false, priority := 1, build_progress := 0 }] }

/-- A builder whose richer beacon holds 30 fuel: the computed share is
positive (15) yet the `0.33 * F_TOTAL` guard fails the refuel. -/
def CS4 : SimState :=
  { sats := [builderSat vzero (1, 2) none 20,
             beaconSat vzero .commander 30, beaconSat vzero .reserver 20],
    tgts := [] }

/-- A builder whose richer beacon has 50 fuel: the refuel succeeds. -/
def CS4b : SimState :=
  { sats := [builderSat vzero (1, 2) none 20,
             beaconSat vzero .commander 50, beaconSat vzero .reserver 40],
    tgts := [] }

/-- A rescuer standing on a drain-dead victim (fuel 0): the capped transfer
of `MIN_RESCUE_FUEL = 10` cannot lift the victim over `T_CRITICAL = 15`. -/
def CS6 : SimState :=
  { sats := [{ freeSat vzero (100 + 3 / 100) with
                 status := .rescue, target := some (.sat 1) },
             { freeSat vzero 0 with status := .dead }],
    tgts := [] }

/-- A rescuer standing on a dead victim that already holds 8 fuel, plus a
low-fuel free agent and a nearly empty free agent (for the weak/dead
transitions). -/
def CW6 : SimState :=
  { sats := [{ freeSat vzero (100 + 3 / 100) with
                 status := .rescue, target := some (.sat 1) },
             { freeSat vzero 8 with status := .dead },
             freeSat vzero 10,
             freeSat vzero (1 / 100)],
    tgts := [] }

/-- Two fresh builders whose top-scored candidate is target 0; builder 0 is
processed first although builder 1 is strictly nearer to target 0. -/
def CS7 : SimState :=
  { sats := [builderSat ⟨2 / 10, 0, 0⟩ (2, 3) none 50,
             builderSat ⟨1 / 10, 0, 0⟩ (4, 5) none 50],
    tgts := [{ pos := vzero, built := false, builder := none,
               locked := false, priority := 1, build_progress := 0 },
             { pos := ⟨3 / 10, 0, 0⟩, built := false, builder := none,
               locked := false, priority := 0, build_progress := 0 }] }

/-- As `CS7`, but the nearer builder 1 is already en route to target 0
(its target reference is committed), so builder 0 must fall back. -/
def CS7b : SimState :=
  { sats := [builderSat ⟨2 / 10, 0, 0⟩ (2, 3) none 50,
             builderSat ⟨1 / 10, 0, 0⟩ (4, 5) (some (.tgt 0)) 50],
    tgts := [{ pos := vzero, built := false, builder := none,
               locked := false, priority := 1, build_progress := 0 },
             { pos := ⟨3 / 10, 0, 0⟩, built := false, builder := none,
               locked := false, priority := 0, build_progress := 0 }] }

/-- `CS7` after builder 0 locked target 0. -/
def CS7a : SimState :=
  { sats := [builderSat ⟨2 / 10, 0, 0⟩ (2, 3) (some (.tgt 0)) 50,
             builderSat ⟨1 / 10, 0, 0⟩ (4, 5) none 50],
    tgts := [{ pos := vzero, built := false, builder := some 0,
               locked := true, priority := 1, build_progress := 0 },
             { pos := ⟨3 / 10, 0, 0⟩, built := false, builder := none,
               locked := false, priority := 0, build_progress := 0 }] }

/-- `CS7a` after builder 0's arrival progress tick on target 0. -/
def CS7c : SimState :=
  { sats := CS7a.sats,
    tgts := [{ pos := vzero, built := false, builder := some 0,
               locked := true, priority := 1, build_progress := 0 + 5 / 100 },
             { pos := ⟨3 / 10, 0, 0⟩, built := false, builder := none,
               locked := false, priority := 0, build_progress := 0 }] }

/-- `CS7c` after builder 1 locked target 1. -/
def CS7d : SimState :=
  { sats := [builderSat ⟨2 / 10, 0, 0⟩ (2, 3) (some (.tgt 0)) 50,
             builderSat ⟨1 / 10, 0, 0⟩ (4, 5) (some (.tgt 1)) 50],
    tgts := [{ pos := vzero, built := false, builder := some 0,
               locked := true, priority := 1, build_progress := 0 + 5 / 100 },
             { pos := ⟨3 / 10, 0, 0⟩, built := false, builder := some 1,
               locked := true, priority := 0, build_progress := 0 }] }

/-- `CS7d` after builder 1's arrival progress tick on target 1: the final
state of one `building_step` on `CS7`. -/
def CS7e : SimState :=
  { sats := CS7d.sats,
    tgts := [{ pos := vzero, built := false, builder := some 0,
               locked := true, priority := 1, build_progress := 0 + 5 / 100 },
             { pos := ⟨3 / 10, 0, 0⟩, built := false, builder := some 1,
               locked := true, priority := 0,
               build_progress := 0 + 5 / 100 }] }

/-- Three co-located eligible free agents with exactly threshold fuel. -/
def CS9 : SimState :=
  { sats := [freeSat vzero 30, freeSat vzero 30, freeSat vzero 30],
    tgts := [] }

/-- A locked target whose recorded owner is a free (non-builder) agent:
the lock sweep must release it. -/
def CW2 : SimState :=
  { sats := [freeSat vzero 50],
    tgts := [{ pos := vzero, built := false, builder := some 0,
               locked := true, priority := 1, build_progress := 0 }] }

/-- A returning satellite already at base carrying arbitrary stale role,
bond and target references. -/
def CW8 : SimState :=
  { sats := [{ pos := vzero, vel := ⟨1, 0, 0⟩, fuel := 50,
               status := .returning, role := some .commander,
               target := some (.tgt 5), beacon_pair := some (9, 9),
               last_goal_revision := 7 }],
    tgts := [] }

/-! # Helper lemmas -/

/-! ## Vectors -/

@[simp] theorem mk_sub_mk (a b c d e f : ℝ) :
    Vec3.mk a b c - Vec3.mk d e f = Vec3.mk (a - d) (b - e) (c - f) := rfl

@[simp] theorem mk_add_mk (a b c d e f : ℝ) :
    Vec3.mk a b c + Vec3.mk d e f = Vec3.mk (a + d) (b + e) (c + f) := rfl

@[simp] theorem smul_mk (s a b c : ℝ) :
    smul s (Vec3.mk a b c) = Vec3.mk (s * a) (s * b) (s * c) := rfl

@[simp] theorem mag_mk (a b c : ℝ) :
    mag (Vec3.mk a b c) = Real.sqrt (a * a + b * b + c * c) := rfl

@[simp] theorem vzero_eq : vzero = Vec3.mk 0 0 0 := rfl

/-- Evaluation of a square root at a perfect square. -/
theorem sqrt_eval {a b : ℝ} (hb : 0 ≤ b) (h : b * b = a) : Real.sqrt a = b := by
  rw [← h]
  exact Real.sqrt_mul_self hb

/-! ## Movement lemmas -/

theorem moveTo_self (s : Satellite) (p : Vec3) (h : mag (p - s.pos) < 1 / 2) :
    moveTo s p = s := by
  unfold moveTo
  rw [if_pos h]

@[simp] theorem moveTo_fuel (s : Satellite) (p : Vec3) :
    (moveTo s p).fuel = s.fuel := by
  unfold moveTo; dsimp only; split <;> rfl

@[simp] theorem moveTo_status (s : Satellite) (p : Vec3) :
    (moveTo s p).status = s.status := by
  unfold moveTo; dsimp only; split <;> rfl

@[simp] theorem moveTo_role (s : Satellite) (p : Vec3) :
    (moveTo s p).role = s.role := by
  unfold moveTo; dsimp only; split <;> rfl

@[simp] theorem moveTo_target (s : Satellite) (p : Vec3) :
    (moveTo s p).target = s.target := by
  unfold moveTo; dsimp only; split <;> rfl

@[simp] theorem moveTo_pair (s : Satellite) (p : Vec3) :
    (moveTo s p).beacon_pair = s.beacon_pair := by
  unfold moveTo; dsimp only; split <;> rfl

@[simp] theorem moveTo_rev (s : Satellite) (p : Vec3) :
    (moveTo s p).last_goal_revision = s.last_goal_revision := by
  unfold moveTo; dsimp only; split <;> rfl

@[simp] theorem randomRoam_fuel (s : Satellite) : (randomRoam s).fuel = s.fuel := rfl

@[simp] theorem randomRoam_status (s : Satellite) :
    (randomRoam s).status = s.status := rfl

@[simp] theorem randomRoam_role (s : Satellite) : (randomRoam s).role = s.role := rfl

@[simp] theorem randomRoam_target (s : Satellite) :
    (randomRoam s).target = s.target := rfl

@[simp] theorem randomRoam_pair (s : Satellite) :
    (randomRoam s).beacon_pair = s.beacon_pair := rfl

@[simp] theorem randomRoam_vel (s : Satellite) : (randomRoam s).vel = s.vel := rfl

@[simp] theorem reflect_fuel (s : Satellite) : (reflect s).fuel = s.fuel := rfl

@[simp] theorem reflect_status (s : Satellite) : (reflect s).status = s.status := rfl

@[simp] theorem reflect_role (s : Satellite) : (reflect s).role = s.role := rfl

@[simp] theorem reflect_target (s : Satellite) : (reflect s).target = s.target := rfl

@[simp] theorem reflect_pair (s : Satellite) :
    (reflect s).beacon_pair = s.beacon_pair := rfl

@[simp] theorem reflect_pos (s : Satellite) : (reflect s).pos = s.pos := rfl

/-! ## State-arena access lemmas -/

@[simp] theorem length_setSat (st : SimState) (i : ℕ) (s : Satellite) :
    (st.setSat i s).sats.length = st.sats.length := by
  simp [SimState.setSat]

@[simp] theorem tgts_setSat (st : SimState) (i : ℕ) (s : Satellite) :
    (st.setSat i s).tgts = st.tgts := rfl

@[simp] theorem sats_setTgt (st : SimState) (t : ℕ) (x : TargetPoint) :
    (st.setTgt t x).sats = st.sats := rfl

@[simp] theorem length_setTgt (st : SimState) (t : ℕ) (x : TargetPoint) :
    (st.setTgt t x).tgts.length = st.tgts.length := by
  simp [SimState.setTgt]

@[simp] theorem getSat_setTgt (st : SimState) (t : ℕ) (x : TargetPoint) (j : ℕ) :
    (st.setTgt t x).getSat j = st.getSat j := rfl

@[simp] theorem getTgt_setSat (st : SimState) (i : ℕ) (s : Satellite) (t : ℕ) :
    (st.setSat i s).getTgt t = st.getTgt t := rfl

theorem getSat_setSat_self (st : SimState) (i : ℕ) (s : Satellite)
    (h : i < st.sats.length) : (st.setSat i s).getSat i = s := by
  simp [SimState.setSat, SimState.getSat, List.getD_eq_getElem?_getD,
    List.getElem?_set, h]

theorem getSat_setSat_ne (st : SimState) (i : ℕ) (s : Satellite) (j : ℕ)
    (h : j ≠ i) : (st.setSat i s).getSat j = st.getSat j := by
  simp [SimState.setSat, SimState.getSat, List.getD_eq_getElem?_getD,
    List.getElem?_set, h.symm]

theorem getTgt_setTgt_self (st : SimState) (t : ℕ) (x : TargetPoint)
    (h : t < st.tgts.length) : (st.setTgt t x).getTgt t = x := by
  simp [SimState.setTgt, SimState.getTgt, List.getD_eq_getElem?_getD,
    List.getElem?_set, h]

theorem getTgt_setTgt_ne (st : SimState) (t : ℕ) (x : TargetPoint) (u : ℕ)
    (h : u ≠ t) : (st.setTgt t x).getTgt u = st.getTgt u := by
  simp [SimState.setTgt, SimState.getTgt, List.getD_eq_getElem?_getD,
    List.getElem?_set, h.symm]

/-- `getSat` after `setSat`, all cases. -/
theorem getSat_setSat (st : SimState) (i : ℕ) (s : Satellite) (j : ℕ) :
    (st.setSat i s).getSat j =
      if j = i ∧ i < st.sats.length then s else st.getSat j := by
  by_cases hj : j = i
  · subst hj
    by_cases hl : j < st.sats.length
    · rw [getSat_setSat_self st j s hl, if_pos ⟨rfl, hl⟩]
    · rw [if_neg (fun hc => hl hc.2)]
      simp [SimState.setSat, SimState.getSat, List.getD_eq_getElem?_getD,
        List.getElem?_set, hl, List.getElem?_eq_none (Nat.le_of_not_lt hl)]
  · rw [getSat_setSat_ne st i s j hj, if_neg (fun hc => hj hc.1)]

/-! ## `filterP` and list helpers -/

theorem mem_filterP {α : Type} (p : α → Prop) (l : List α) (a : α) :
    a ∈ filterP p l ↔ a ∈ l ∧ p a := by
  induction l with
  | nil => simp [filterP]
  | cons b bs ih =>
      by_cases hb : p b
      · rw [filterP, if_pos hb]
        rw [List.mem_cons, List.mem_cons, ih]
        constructor
        · rintro (rfl | ⟨hm, hp⟩)
          · exact ⟨Or.inl rfl, hb⟩
          · exact ⟨Or.inr hm, hp⟩
        · rintro ⟨rfl | hm, hp⟩
          · exact Or.inl rfl
          · exact Or.inr ⟨hm, hp⟩
      · rw [filterP, if_neg hb, ih, List.mem_cons]
        constructor
        · rintro ⟨hm, hp⟩
          exact ⟨Or.inr hm, hp⟩
        · rintro ⟨rfl | hm, hp⟩
          · exact absurd hp hb
          · exact ⟨hm, hp⟩

theorem filterP_sublist {α : Type} (p : α → Prop) (l : List α) :
    (filterP p l).Sublist l := by
  induction l with
  | nil => simp [filterP]
  | cons b bs ih =>
      by_cases hb : p b
      · rw [filterP, if_pos hb]
        exact ih.cons₂ b
      · rw [filterP, if_neg hb]
        exact ih.cons b

theorem filterP_nodup {α : Type} (p : α → Prop) (l : List α) (h : l.Nodup) :
    (filterP p l).Nodup := (filterP_sublist p l).nodup h

theorem getD_mem {α : Type} (l : List α) (i : ℕ) (d : α) (h : i < l.length) :
    l.getD i d ∈ l := by
  induction l generalizing i with
  | nil => simp at h
  | cons b bs ih =>
      cases i with
      | zero => simp
      | succ n =>
          rw [List.getD_cons_succ]
          exact List.mem_cons_of_mem b (ih n (Nat.lt_of_succ_lt_succ h))

/-! ## Refuel lemmas -/

/-- Overwriting only the role of a satellite leaves every fuel projection
unchanged. -/
theorem getSat_set_role_fuel (st : SimState) (i : ℕ) (ro : Option Role)
    (j : ℕ) :
    ((st.setSat i { st.getSat i with role := ro }).getSat j).fuel =
      (st.getSat j).fuel := by
  rw [getSat_setSat]
  split
  · rename_i hx
    rw [hx.1]
  · rfl

/-- The role-swap stage of `refuel_builder` never changes fuel. -/
theorem roleSwap_fuel (st : SimState) (c r j : ℕ) :
    ((((st.setSat c { st.getSat c with role := (st.getSat r).role }).setSat r
        { (st.setSat c { st.getSat c with role := (st.getSat r).role }).getSat r
            with role := (st.getSat c).role })).getSat j).fuel =
      (st.getSat j).fuel := by
  rw [getSat_set_role_fuel, getSat_set_role_fuel]

/-- Behaviour of `refuel_builder` for a builder with a proper bonded pair:
the donor is the beacon with the larger fuel; the attempt fails exactly when
the donor is at or below `F_TOTAL * 0.33` (in particular whenever the
computed share is nonpositive, since the share is then forced nonpositive
donor fuel is at most `T_CRITICAL < F_TOTAL * 0.33`), leaving the state
unchanged; on success the donor loses exactly the share and the builder
gains it, capped at `F_TOTAL`. -/
theorem refuelBuilder_spec (st : SimState) (i c r : ℕ)
    (hpair : (st.getSat i).beacon_pair = some (c, r))
    (hic : i ≠ c) (hir : i ≠ r)
    (hi : i < st.sats.length) (hc : c < st.sats.length)
    (hr : r < st.sats.length) :
    (st.getSat (donorOf st c r)).fuel =
        max (st.getSat c).fuel (st.getSat r).fuel ∧
    (shareAmount st (donorOf st c r) ≤ 0 → refuelBuilder st i = (st, false)) ∧
    (¬ (st.getSat (donorOf st c r)).fuel > F_TOTAL * (33 / 100) →
        refuelBuilder st i = (st, false)) ∧
    ((st.getSat (donorOf st c r)).fuel > F_TOTAL * (33 / 100) →
        (refuelBuilder st i).2 = true ∧
        0 < shareAmount st (donorOf st c r) ∧
        ((refuelBuilder st i).1.getSat (donorOf st c r)).fuel =
          (st.getSat (donorOf st c r)).fuel - shareAmount st (donorOf st c r) ∧
        ((refuelBuilder st i).1.getSat i).fuel =
          min ((st.getSat i).fuel + shareAmount st (donorOf st c r)) F_TOTAL) := by
  have hdcr : donorOf st c r = c ∨ donorOf st c r = r := by
    unfold donorOf; split
    · exact Or.inl rfl
    · exact Or.inr rfl
  have hid : i ≠ donorOf st c r := by
    rcases hdcr with h | h <;> rw [h]
    · exact hic
    · exact hir
  have hdl : donorOf st c r < st.sats.length := by
    rcases hdcr with h | h <;> rw [h]
    · exact hc
    · exact hr
  refine ⟨?_, ?_, ?_, ?_⟩
  · unfold donorOf
    split
    · rename_i hgt
      exact (max_eq_left (le_of_lt hgt)).symm
    · rename_i hgt
      exact (max_eq_right (le_of_not_lt hgt)).symm
  · intro hA
    have hfd : ¬ (st.getSat (donorOf st c r)).fuel > F_TOTAL * (33 / 100) := by
      unfold shareAmount at hA
      rcases min_le_iff.mp hA with h1 | h2
      · rcases min_le_iff.mp h1 with h3 | h4
        · exfalso
          rw [F_MAX_SHARE, F_TOTAL] at h3
          norm_num at h3
        · rw [F_TOTAL]
          intro hgt
          nlinarith
      · rw [F_TOTAL]
        rw [T_CRITICAL] at h2
        intro hgt
        nlinarith
    simp only [refuelBuilder, hpair]
    rw [if_neg hfd]
  · intro hfd
    simp only [refuelBuilder, hpair]
    rw [if_neg hfd]
  · intro hfd
    have hA : 0 < shareAmount st (donorOf st c r) := by
      unfold shareAmount
      rw [lt_min_iff, lt_min_iff]
      rw [F_TOTAL] at hfd
      refine ⟨⟨?_, ?_⟩, ?_⟩
      · rw [F_MAX_SHARE, F_TOTAL]; norm_num
      · nlinarith
      · rw [T_CRITICAL]; nlinarith
    have hres : refuelBuilder st i =
        (let st1 := st.setSat (donorOf st c r)
            { st.getSat (donorOf st c r) with
              fuel := (st.getSat (donorOf st c r)).fuel -
                shareAmount st (donorOf st c r) }
         let st2 := st1.setSat i
            { st1.getSat i with
              fuel := min ((st1.getSat i).fuel + shareAmount st (donorOf st c r))
                F_TOTAL }
         let st3 :=
          if (st2.getSat c).fuel < (st2.getSat r).fuel then
            let cr := (st2.getSat c).role
            let rr := (st2.getSat r).role
            let u := st2.setSat c { st2.getSat c with role := rr }
            u.setSat r { u.getSat r with role := cr }
          else st2
         (st3, true)) := by
      simp only [refuelBuilder, hpair]
      rw [if_pos hfd, if_neg (not_le.mpr hA)]
    refine ⟨?_, hA, ?_, ?_⟩
    · rw [hres]
    · rw [hres]
      dsimp only
      have key : ∀ u : SimState,
          ((if (u.getSat c).fuel < (u.getSat r).fuel then
              let cr := (u.getSat c).role
              let rr := (u.getSat r).role
              let w := u.setSat c { u.getSat c with role := rr }
              w.setSat r { w.getSat r with role := cr }
            else u).getSat (donorOf st c r)).fuel =
            (u.getSat (donorOf st c r)).fuel := by
        intro u
        split
        · exact roleSwap_fuel u c r (donorOf st c r)
        · rfl
      rw [key]
      rw [getSat_setSat_ne _ _ _ _ (Ne.symm hid)]
      rw [getSat_setSat_self _ _ _ hdl]
    · rw [hres]
      dsimp only
      have key : ∀ u : SimState,
          ((if (u.getSat c).fuel < (u.getSat r).fuel then
              let cr := (u.getSat c).role
              let rr := (u.getSat r).role
              let w := u.setSat c { u.getSat c with role := rr }
              w.setSat r { w.getSat r with role := cr }
            else u).getSat i).fuel = (u.getSat i).fuel := by
        intro u
        split
        · exact roleSwap_fuel u c r i
        · rfl
      rw [key]
      rw [getSat_setSat_self _ _ _ (by simpa using hi)]
      rw [getSat_setSat_ne _ _ _ _ hid]

/-! # Claim C4 -/

/-- Claim C4 (amended): for a refuel attempt on a builder with a proper
bonded pair, the donor is the beacon with the higher fuel of the pair; the
attempt fails, with no state change, exactly when the donor's fuel is at
most `F_TOTAL * 0.33` — in particular whenever the computed amount
`min(shareCap, donor.fuel * 0.5, donor.fuel - T_CRITICAL)` is nonpositive —
and on success the donor's fuel decreases by exactly that amount while the
builder's fuel increases by it, capped at `F_TOTAL`. -/
theorem C4_refuel (st : SimState) (i c r : ℕ)
    (hpair : (st.getSat i).beacon_pair = some (c, r))
    (hic : i ≠ c) (hir : i ≠ r)
    (hi : i < st.sats.length) (hc : c < st.sats.length)
    (hr : r < st.sats.length) :
    (st.getSat (donorOf st c r)).fuel =
        max (st.getSat c).fuel (st.getSat r).fuel ∧
    (shareAmount st (donorOf st c r) ≤ 0 → refuelBuilder st i = (st, false)) ∧
    (¬ (st.getSat (donorOf st c r)).fuel > F_TOTAL * (33 / 100) →
        refuelBuilder st i = (st, false)) ∧
    ((st.getSat (donorOf st c r)).fuel > F_TOTAL * (33 / 100) →
        (refuelBuilder st i).2 = true ∧
        0 < shareAmount st (donorOf st c r) ∧
        ((refuelBuilder st i).1.getSat (donorOf st c r)).fuel =
          (st.getSat (donorOf st c r)).fuel - shareAmount st (donorOf st c r) ∧
        ((refuelBuilder st i).1.getSat i).fuel =
          min ((st.getSat i).fuel + shareAmount st (donorOf st c r)) F_TOTAL) :=
  refuelBuilder_spec st i c r hpair hic hir hi hc hr

/-- Claim C4, counterexample to the claim as stated: in `CS4` the computed
amount is positive (15), yet the refuel attempt fails because the donor
holds only 30 ≤ `F_TOTAL * 0.33` fuel — failure is not equivalent to a
nonpositive amount. -/
theorem C4_counterexample :
    (CS4.getSat 0).beacon_pair = some (1, 2) ∧
    donorOf CS4 1 2 = 1 ∧
    0 < shareAmount CS4 (donorOf CS4 1 2) ∧
    refuelBuilder CS4 0 = (CS4, false) := by
  have hpair : (CS4.getSat 0).beacon_pair = some (1, 2) := by
    simp [CS4, builderSat, SimState.getSat]
  have hd : donorOf CS4 1 2 = 1 := by
    simp [donorOf, CS4, beaconSat, SimState.getSat,
      show (20 : ℝ) < 30 from by norm_num]
  have hA : 0 < shareAmount CS4 (donorOf CS4 1 2) := by
    rw [hd]
    rw [shareAmount, lt_min_iff, lt_min_iff]
    simp [CS4, beaconSat, SimState.getSat, F_MAX_SHARE, F_TOTAL, T_CRITICAL]
    norm_num
  refine ⟨hpair, hd, hA, ?_⟩
  simp only [refuelBuilder, hpair]
  rw [if_neg]
  rw [hd]
  simp [CS4, beaconSat, SimState.getSat, F_TOTAL]
  norm_num

/-- Claim C4, witness: in `CS4b` the donor (beacon 1 with 50 fuel) clears the
guard and the refuel succeeds with the stated fuel updates. -/
theorem C4_witness :
    (refuelBuilder CS4b 0).2 = true ∧
    0 < shareAmount CS4b (donorOf CS4b 1 2) ∧
    ((refuelBuilder CS4b 0).1.getSat (donorOf CS4b 1 2)).fuel =
      (CS4b.getSat (donorOf CS4b 1 2)).fuel - shareAmount CS4b (donorOf CS4b 1 2) ∧
    ((refuelBuilder CS4b 0).1.getSat 0).fuel =
      min ((CS4b.getSat 0).fuel + shareAmount CS4b (donorOf CS4b 1 2)) F_TOTAL := by
  have hd : donorOf CS4b 1 2 = 1 := by
    simp [donorOf, CS4b, beaconSat, SimState.getSat,
      show (40 : ℝ) < 50 from by norm_num]
  refine (C4_refuel CS4b 0 1 2 ?_ ?_ ?_ ?_ ?_ ?_).2.2.2 ?_
  · simp [CS4b, builderSat, SimState.getSat]
  · norm_num
  · norm_num
  · simp [CS4b]
  · simp [CS4b]
  · simp [CS4b]
  · rw [hd]
    simp [CS4b, beaconSat, SimState.getSat, F_TOTAL]
    norm_num

/-! # Claim C10 -/

/-- A single arena write whose record respects the `T_CRITICAL` floor
preserves the floor at every index. -/
theorem setSat_fuel_floor (st : SimState) (i : ℕ) (s : Satellite)
    (h : min T_CRITICAL ((st.getSat i).fuel) ≤ s.fuel) (j : ℕ) :
    min T_CRITICAL ((st.getSat j).fuel) ≤ ((st.setSat i s).getSat j).fuel := by
  rw [getSat_setSat]
  split
  · rename_i hx
    rw [hx.1]
    exact h
  · exact min_le_right _ _

/-- The `T_CRITICAL` floor is transitive along successive states. -/
theorem floor_trans {a b c : ℝ} (h1 : min T_CRITICAL a ≤ b)
    (h2 : min T_CRITICAL b ≤ c) : min T_CRITICAL a ≤ c :=
  le_trans (le_min (min_le_left _ _) h1) h2

/-- `refuel_builder` leaves every satellite's fuel at or above
`min T_CRITICAL (previous fuel)`. -/
theorem refuelBuilder_floor (st : SimState) (i j : ℕ) :
    min T_CRITICAL ((st.getSat j).fuel) ≤
      ((refuelBuilder st i).1.getSat j).fuel := by
  rcases hp : (st.getSat i).beacon_pair with _ | ⟨c, r⟩
  · simp only [refuelBuilder, hp]
    exact min_le_right _ _
  · simp only [refuelBuilder, hp]
    split
    · split
      · exact min_le_right _ _
      · rename_i hguard hA
        have hApos : (0 : ℝ) < shareAmount st (donorOf st c r) := lt_of_not_le hA
        have hAle : shareAmount st (donorOf st c r) ≤
            (st.getSat (donorOf st c r)).fuel - T_CRITICAL := min_le_right _ _
        dsimp only
        have h1 : ∀ k, min T_CRITICAL ((st.getSat k).fuel) ≤
            ((st.setSat (donorOf st c r)
              { st.getSat (donorOf st c r) with
                fuel := (st.getSat (donorOf st c r)).fuel -
                  shareAmount st (donorOf st c r) }).getSat k).fuel := by
          intro k
          apply setSat_fuel_floor
          have : min T_CRITICAL ((st.getSat (donorOf st c r)).fuel) ≤
              T_CRITICAL := min_le_left _ _
          dsimp only
          linarith
        set st1 := st.setSat (donorOf st c r)
          { st.getSat (donorOf st c r) with
            fuel := (st.getSat (donorOf st c r)).fuel -
              shareAmount st (donorOf st c r) } with hst1
        have h2 : ∀ k, min T_CRITICAL ((st1.getSat k).fuel) ≤
            ((st1.setSat i
              { st1.getSat i with
                fuel := min ((st1.getSat i).fuel +
                  shareAmount st (donorOf st c r)) F_TOTAL }).getSat k).fuel := by
          intro k
          apply setSat_fuel_floor
          dsimp only
          apply le_min
          · have := min_le_right T_CRITICAL ((st1.getSat i).fuel)
            linarith
          · have := min_le_left T_CRITICAL ((st1.getSat i).fuel)
            rw [T_CRITICAL] at this ⊢
            rw [F_TOTAL]
            linarith
        set st2 := st1.setSat i
          { st1.getSat i with
            fuel := min ((st1.getSat i).fuel +
              shareAmount st (donorOf st c r)) F_TOTAL } with hst2
        have h3 : ∀ k, ((if (st2.getSat c).fuel < (st2.getSat r).fuel then
            let cr := (st2.getSat c).role
            let rr := (st2.getSat r).role
            let u := st2.setSat c { st2.getSat c with role := rr }
            u.setSat r { u.getSat r with role := cr }
          else st2).getSat k).fuel = (st2.getSat k).fuel := by
          intro k
          split
          · exact roleSwap_fuel st2 c r k
          · rfl
        refine floor_trans (h1 j) (floor_trans (h2 j) ?_)
        rw [h3 j]
        exact min_le_right _ _
    · exact min_le_right _ _

/-- One weak-aid transfer leaves every satellite's fuel at or above
`min T_CRITICAL (previous fuel)`. -/
theorem weakAidOne_floor (w : ℕ) (st : SimState) (j : ℕ) :
    min T_CRITICAL ((st.getSat j).fuel) ≤ ((weakAidOne w st).getSat j).fuel := by
  rw [weakAidOne]
  rcases hmin : argminBy
      (fun r => mag ((st.getSat r).pos - (st.getSat w).pos))
      (filterP (fun j => (st.getSat j).status = .beacon ∧
        (st.getSat j).role = some .reserver ∧
        (st.getSat j).fuel > F_TOTAL * (33 / 100))
        (List.range st.sats.length)) with _ | nearest
  · exact min_le_right _ _
  · dsimp only
    split
    · split
      · rename_i hdist htr
        have htr' : (0 : ℝ) <
            min F_MAX_SHARE ((st.getSat nearest).fuel - T_CRITICAL) := htr
        have h1 : ∀ k, min T_CRITICAL ((st.getSat k).fuel) ≤
            ((st.setSat nearest
              { st.getSat nearest with
                fuel := (st.getSat nearest).fuel -
                  min F_MAX_SHARE ((st.getSat nearest).fuel - T_CRITICAL)
                }).getSat k).fuel := by
          intro k
          apply setSat_fuel_floor
          dsimp only
          have hle : min F_MAX_SHARE ((st.getSat nearest).fuel - T_CRITICAL) ≤
              (st.getSat nearest).fuel - T_CRITICAL := min_le_right _ _
          have := min_le_left T_CRITICAL ((st.getSat nearest).fuel)
          linarith
        set st1 := st.setSat nearest
          { st.getSat nearest with
            fuel := (st.getSat nearest).fuel -
              min F_MAX_SHARE ((st.getSat nearest).fuel - T_CRITICAL) } with hst1
        have h2 : ∀ k, min T_CRITICAL ((st1.getSat k).fuel) ≤
            ((st1.setSat w
              { st1.getSat w with
                fuel := min ((st1.getSat w).fuel +
                  min F_MAX_SHARE ((st.getSat nearest).fuel - T_CRITICAL))
                  F_TOTAL,
                status := .free }).getSat k).fuel := by
          intro k
          apply setSat_fuel_floor
          dsimp only
          apply le_min
          · have := min_le_right T_CRITICAL ((st1.getSat w).fuel)
            linarith
          · have := min_le_left T_CRITICAL ((st1.getSat w).fuel)
            rw [T_CRITICAL] at this ⊢
            rw [F_TOTAL]
            linarith
        exact floor_trans (h1 j) (h2 j)
      · exact min_le_right _ _
    · exact min_le_right _ _

/-- The whole weak-aid pass keeps every satellite at or above the floor. -/
theorem weakAid_fold_floor (l : List ℕ) (st : SimState) (j : ℕ) :
    min T_CRITICAL ((st.getSat j).fuel) ≤
      ((l.foldl (fun acc w => weakAidOne w acc) st).getSat j).fuel := by
  induction l generalizing st with
  | nil => exact min_le_right _ _
  | cons w ws ih =>
      rw [List.foldl_cons]
      exact floor_trans (weakAidOne_floor w st j) (ih (weakAidOne w st))

/-- Claim C10: in both beacon-donor transfer paths — the builder refuel and
the weak-agent aid — the transferred amount is bounded by
`donor.fuel - T_CRITICAL`, so no transfer ever pushes any satellite (in
particular the donating beacon) below `min T_CRITICAL (its previous fuel)`:
a donor at or above `T_CRITICAL` stays at or above `T_CRITICAL`. -/
theorem C10_donor_floor :
    (∀ st d, shareAmount st d ≤ (st.getSat d).fuel - T_CRITICAL) ∧
    (∀ st i j, min T_CRITICAL ((st.getSat j).fuel) ≤
      ((refuelBuilder st i).1.getSat j).fuel) ∧
    (∀ st j, min T_CRITICAL ((st.getSat j).fuel) ≤
      ((weakAid st).getSat j).fuel) :=
  ⟨fun _ _ => min_le_right _ _,
   refuelBuilder_floor,
   fun st j => weakAid_fold_floor _ st j⟩

/-! ## `Satellite.step` branch lemmas -/

/-- A free satellite whose post-drain fuel is positive but below
`T_CRITICAL` ends the step as `weak`. -/
theorem stepSat_free_weak (rvel : ℕ → Vec3) (st : SimState) (i : ℕ)
    (hi : i < st.sats.length)
    (hstat : (st.getSat i).status = .free)
    (hpos : 0 < (st.getSat i).fuel - ICE_CONSUMPTION)
    (hlow : (st.getSat i).fuel - ICE_CONSUMPTION < T_CRITICAL) :
    ((stepSat rvel i st).getSat i).status = .weak := by
  have hres : stepSat rvel i st =
      st.setSat i { reflect (randomRoam (st.getSat i)) with
        fuel := (st.getSat i).fuel - ICE_CONSUMPTION, status := .weak } := by
    rcases ht : (st.getSat i).target with _ | ⟨j⟩ | ⟨j⟩ <;>
      simp [stepSat, moveStep, drainTrans, rescuePhase, hstat, ht, not_le.mpr hpos, hlow]
  rw [hres, getSat_setSat_self _ _ _ hi]

/-- Any satellite whose post-drain fuel is nonpositive ends the step
`dead`. -/
theorem stepSat_drain_dead (rvel : ℕ → Vec3) (st : SimState) (i : ℕ)
    (hi : i < st.sats.length)
    (hdrain : (st.getSat i).fuel - drainRate ((st.getSat i).status) ≤ 0) :
    ((stepSat rvel i st).getSat i).status = .dead := by
  rcases hstat : (st.getSat i).status with _ | _ | _ | _ | _ | _ | _ | _
  -- free
  case free =>
    rw [hstat] at hdrain
    simp [drainRate] at hdrain
    rcases ht : (st.getSat i).target with _ | ⟨j⟩ | ⟨j⟩ <;>
      · have hres : stepSat rvel i st =
            st.setSat i { reflect (randomRoam (st.getSat i)) with
              fuel := (st.getSat i).fuel - ICE_CONSUMPTION, status := .dead,
              vel := vzero } := by
          simp [stepSat, moveStep, drainTrans, rescuePhase, hstat, ht, hdrain]
        rw [hres, getSat_setSat_self _ _ _ hi]
  -- builder
  case builder =>
    rw [hstat] at hdrain
    simp [drainRate] at hdrain
    rcases hbp : (st.getSat i).beacon_pair with _ | ⟨b1, b2⟩ <;>
      rcases ht : (st.getSat i).target with _ | ⟨j⟩ | ⟨j⟩ <;>
      · rw [stepSat]
        simp [moveStep, drainTrans, rescuePhase, hstat, ht, hbp, hdrain,
          getSat_setSat_self _ _ _ hi]
  -- beacon
  case beacon =>
    rw [hstat] at hdrain
    simp [drainRate] at hdrain
    rw [stepSat]
    simp [hstat, hdrain, getSat_setSat_self _ _ _ hi]
  -- rescue
  case rescue =>
    rw [hstat] at hdrain
    simp [drainRate] at hdrain
    rcases ht : (st.getSat i).target with _ | ⟨j⟩ | ⟨j⟩ <;>
      · rw [stepSat]
        simp [moveStep, drainTrans, rescuePhase, hstat, ht, hdrain,
          getSat_setSat_self _ _ _ hi]
  -- returning
  case returning =>
    rw [hstat] at hdrain
    simp [drainRate] at hdrain
    rcases ht : (st.getSat i).target with _ | ⟨j⟩ | ⟨j⟩ <;>
      · rw [stepSat]
        simp [moveStep, drainTrans, rescuePhase, hstat, ht, hdrain,
          getSat_setSat_self _ _ _ hi]
  -- weak
  case weak =>
    rw [hstat] at hdrain
    simp [drainRate] at hdrain
    rcases ht : (st.getSat i).target with _ | ⟨j⟩ | ⟨j⟩ <;>
      · rw [stepSat]
        simp [moveStep, drainTrans, rescuePhase, hstat, ht, hdrain,
          getSat_setSat_self _ _ _ hi]
  -- dead
  case dead =>
    rw [hstat] at hdrain
    simp [drainRate] at hdrain
    rcases ht : (st.getSat i).target with _ | ⟨j⟩ | ⟨j⟩ <;>
      · rw [stepSat]
        simp [moveStep, drainTrans, rescuePhase, hstat, ht, hdrain,
          getSat_setSat_self _ _ _ hi]
  -- stationed
  case stationed =>
    rw [hstat] at hdrain
    simp [drainRate] at hdrain
    rw [stepSat]
    simp [hstat, hdrain, getSat_setSat_self _ _ _ hi]

/-- A returning satellite with fuel left that ends its movement within the
base arrival radius is fully reset: full tank, `free`, fresh random
velocity, no role, no bond — whatever its fuel, role, bond or target
references were. -/
theorem stepSat_returning_reset (rvel : ℕ → Vec3) (st : SimState) (i : ℕ)
    (hi : i < st.sats.length)
    (hstat : (st.getSat i).status = .returning)
    (hpos : 0 < (st.getSat i).fuel - ICE_CONSUMPTION)
    (harr : mag ((moveTo (st.getSat i) BASE_POS).pos - BASE_POS) < 3) :
    ((stepSat rvel i st).getSat i).fuel = F_TOTAL ∧
    ((stepSat rvel i st).getSat i).status = .free ∧
    ((stepSat rvel i st).getSat i).vel = rvel i ∧
    ((stepSat rvel i st).getSat i).role = none ∧
    ((stepSat rvel i st).getSat i).beacon_pair = none := by
  have harr' : mag ((reflect (moveTo (st.getSat i) BASE_POS)).pos - BASE_POS) < 3 := by
    rw [reflect_pos]
    exact harr
  have hres : stepSat rvel i st =
      st.setSat i { reflect (moveTo (st.getSat i) BASE_POS) with
        fuel := F_TOTAL, status := .free, vel := rvel i, role := none,
        beacon_pair := none } := by
    rcases ht : (st.getSat i).target with _ | ⟨j⟩ | ⟨j⟩ <;>
      simp [stepSat, moveStep, drainTrans, rescuePhase, hstat, ht,
        not_le.mpr hpos, harr, harr']
  rw [hres, getSat_setSat_self _ _ _ hi]
  exact ⟨rfl, rfl, rfl, rfl, rfl⟩

/-- The successful rescue-arrival branch of `Satellite.step`: the victim's
fuel rises by the (positive) computed transfer, capped at `F_TOTAL`; the
victim returns to `free` exactly when the new fuel clears `T_CRITICAL`
(and otherwise keeps its status); the rescuer leaves as `returning` with
its target cleared. -/
theorem stepSat_rescue_spec (rvel : ℕ → Vec3) (st : SimState) (i j : ℕ)
    (hi : i < st.sats.length) (hj : j < st.sats.length) (hij : j ≠ i)
    (hstat : (st.getSat i).status = .rescue)
    (ht : (st.getSat i).target = some (.sat j))
    (hfmin : MIN_RESCUE_FUEL ≤ (st.getSat i).fuel - ICE_CONSUMPTION)
    (hdist : mag ((moveTo (st.getSat i) ((st.getSat j).pos)).pos -
      (st.getSat j).pos) < 3)
    (htr : 0 < rescueTransfer st i j) :
    ((stepSat rvel i st).getSat j).fuel =
        min ((st.getSat j).fuel + rescueTransfer st i j) F_TOTAL ∧
    (st.getSat j).fuel < ((stepSat rvel i st).getSat j).fuel ∧
    ((stepSat rvel i st).getSat j).fuel ≤ F_TOTAL ∧
    ((stepSat rvel i st).getSat j).status =
      (if T_CRITICAL < min ((st.getSat j).fuel + rescueTransfer st i j) F_TOTAL
       then Status.free else (st.getSat j).status) ∧
    ((stepSat rvel i st).getSat i).status = .returning ∧
    ((stepSat rvel i st).getSat i).target = none := by
  have hpos : 0 < (st.getSat i).fuel - ICE_CONSUMPTION := by
    rw [MIN_RESCUE_FUEL] at hfmin
    linarith
  have hdist' : mag ((reflect (moveTo (st.getSat i) ((st.getSat j).pos))).pos -
      (st.getSat j).pos) < 3 := by
    rw [reflect_pos]
    exact hdist
  have htr3 : 0 < min MIN_RESCUE_FUEL
        (fdiv ((st.getSat i).fuel - ICE_CONSUMPTION) 2) ∧
      0 < F_TOTAL - (st.getSat j).fuel := by
    rw [rescueTransfer, lt_min_iff] at htr
    exact htr
  have htr1 : 0 < fdiv ((st.getSat i).fuel - ICE_CONSUMPTION) 2 :=
    (lt_min_iff.mp htr3.1).2
  have htr2 : (st.getSat j).fuel < F_TOTAL := by
    have := htr3.2
    linarith
  have key : stepSat rvel i st =
      (st.setSat j
        (if T_CRITICAL <
            min ((st.getSat j).fuel + rescueTransfer st i j) F_TOTAL then
          { st.getSat j with
            fuel := min ((st.getSat j).fuel + rescueTransfer st i j) F_TOTAL,
            status := .free, vel := rvel j }
         else
          { st.getSat j with
            fuel := min ((st.getSat j).fuel + rescueTransfer st i j) F_TOTAL
            })).setSat i
        { reflect (moveTo (st.getSat i) ((st.getSat j).pos)) with
          fuel := (st.getSat i).fuel - ICE_CONSUMPTION - rescueTransfer st i j,
          status := .returning, target := none } := by
    simp [stepSat, moveStep, drainTrans, rescuePhase, rescueTransfer, hstat,
      ht, not_le.mpr hpos, hdist, hdist', hfmin, htr, htr1, htr2,
      not_le.mpr htr2, sub_sub,
      show (0 : ℝ) < MIN_RESCUE_FUEL from by rw [MIN_RESCUE_FUEL]; norm_num]
  have hgetj : (stepSat rvel i st).getSat j =
      (if T_CRITICAL <
          min ((st.getSat j).fuel + rescueTransfer st i j) F_TOTAL then
        { st.getSat j with
          fuel := min ((st.getSat j).fuel + rescueTransfer st i j) F_TOTAL,
          status := .free, vel := rvel j }
       else
        { st.getSat j with
          fuel := min ((st.getSat j).fuel + rescueTransfer st i j) F_TOTAL }) := by
    rw [key, getSat_setSat_ne _ _ _ _ hij, getSat_setSat_self _ _ _ hj]
  have hgeti : (stepSat rvel i st).getSat i =
      { reflect (moveTo (st.getSat i) ((st.getSat j).pos)) with
        fuel := (st.getSat i).fuel - ICE_CONSUMPTION - rescueTransfer st i j,
        status := .returning, target := none } := by
    rw [key, getSat_setSat_self _ _ _ (by simpa using hi)]
  have hfj : ((stepSat rvel i st).getSat j).fuel =
      min ((st.getSat j).fuel + rescueTransfer st i j) F_TOTAL := by
    rw [hgetj]
    split <;> rfl
  have hcap : (st.getSat j).fuel + rescueTransfer st i j ≤ F_TOTAL := by
    have := min_le_right
      (min MIN_RESCUE_FUEL (fdiv ((st.getSat i).fuel - ICE_CONSUMPTION) 2))
      (F_TOTAL - (st.getSat j).fuel)
    rw [← rescueTransfer] at this
    linarith
  refine ⟨hfj, ?_, ?_, ?_, ?_, ?_⟩
  · rw [hfj, min_eq_left hcap]
    linarith
  · rw [hfj]
    exact min_le_right _ _
  · rw [hgetj]
    split <;> rfl
  · rw [hgeti]
  · rw [hgeti]

/-! # Claim C6 -/

/-- Claim C6 (amended): a free agent whose post-drain fuel is positive but
below `T_CRITICAL` transitions to `weak`; an agent whose post-drain fuel
reaches 0 transitions to `dead`; and a dead agent that receives a rescue
assignment followed by a successful proximity transfer (rescuer within the
arrival radius with post-drain fuel at or above `MIN_RESCUE_FUEL`, computed
transfer positive) has its fuel strictly increased, never above `F_TOTAL` —
but it returns to `free` only when the new fuel exceeds `T_CRITICAL`, and
otherwise stays dead despite the transfer. -/
theorem C6_transitions :
    (∀ (rvel : ℕ → Vec3) (st : SimState) (i : ℕ), i < st.sats.length →
      (st.getSat i).status = .free →
      0 < (st.getSat i).fuel - ICE_CONSUMPTION →
      (st.getSat i).fuel - ICE_CONSUMPTION < T_CRITICAL →
      ((stepSat rvel i st).getSat i).status = .weak) ∧
    (∀ (rvel : ℕ → Vec3) (st : SimState) (i : ℕ), i < st.sats.length →
      (st.getSat i).fuel - drainRate ((st.getSat i).status) ≤ 0 →
      ((stepSat rvel i st).getSat i).status = .dead) ∧
    (∀ (rvel : ℕ → Vec3) (st : SimState) (i j : ℕ),
      i < st.sats.length → j < st.sats.length → j ≠ i →
      (st.getSat i).status = .rescue →
      (st.getSat i).target = some (.sat j) →
      MIN_RESCUE_FUEL ≤ (st.getSat i).fuel - ICE_CONSUMPTION →
      mag ((moveTo (st.getSat i) ((st.getSat j).pos)).pos -
        (st.getSat j).pos) < 3 →
      0 < rescueTransfer st i j →
      (st.getSat j).fuel < ((stepSat rvel i st).getSat j).fuel ∧
      ((stepSat rvel i st).getSat j).fuel ≤ F_TOTAL ∧
      ((stepSat rvel i st).getSat j).status =
        (if T_CRITICAL <
            min ((st.getSat j).fuel + rescueTransfer st i j) F_TOTAL
         then Status.free else (st.getSat j).status) ∧
      ((stepSat rvel i st).getSat i).status = .returning) :=
  ⟨fun rvel st i hi h1 h2 h3 => stepSat_free_weak rvel st i hi h1 h2 h3,
   fun rvel st i hi h1 => stepSat_drain_dead rvel st i hi h1,
   fun rvel st i j hi hj hij h1 h2 h3 h4 h5 =>
     ⟨(stepSat_rescue_spec rvel st i j hi hj hij h1 h2 h3 h4 h5).2.1,
      (stepSat_rescue_spec rvel st i j hi hj hij h1 h2 h3 h4 h5).2.2.1,
      (stepSat_rescue_spec rvel st i j hi hj hij h1 h2 h3 h4 h5).2.2.2.1,
      (stepSat_rescue_spec rvel st i j hi hj hij h1 h2 h3 h4 h5).2.2.2.2.1⟩⟩

/-- Claim C6, counterexample to the claim as stated: in `CS6` the victim is
dead at fuel 0, the rescuer is assigned and arrives with ample fuel and a
positive computed transfer of 10, yet after the step the victim is still
`dead` (10 < `T_CRITICAL` = 15) — one successful transfer does not return
a drain-dead agent to `free`. -/
theorem C6_counterexample :
    (CS6.getSat 1).status = .dead ∧
    (CS6.getSat 0).status = .rescue ∧
    (CS6.getSat 0).target = some (.sat 1) ∧
    mag ((moveTo (CS6.getSat 0) ((CS6.getSat 1).pos)).pos -
      (CS6.getSat 1).pos) < 3 ∧
    MIN_RESCUE_FUEL ≤ (CS6.getSat 0).fuel - ICE_CONSUMPTION ∧
    0 < rescueTransfer CS6 0 1 ∧
    (CS6.getSat 1).fuel < ((stepSat (fun _ => vzero) 0 CS6).getSat 1).fuel ∧
    ((stepSat (fun _ => vzero) 0 CS6).getSat 1).status = .dead := by
  have hstat1 : (CS6.getSat 1).status = .dead := by
    simp [CS6, freeSat, SimState.getSat]
  have hstat0 : (CS6.getSat 0).status = .rescue := by
    simp [CS6, freeSat, SimState.getSat]
  have htgt0 : (CS6.getSat 0).target = some (.sat 1) := by
    simp [CS6, freeSat, SimState.getSat]
  have hfuel0 : (CS6.getSat 0).fuel = 100 + 3 / 100 := by
    simp [CS6, freeSat, SimState.getSat]
  have hfuel1 : (CS6.getSat 1).fuel = 0 := by
    simp [CS6, freeSat, SimState.getSat]
  have hpos0 : (CS6.getSat 0).pos = vzero := by
    simp [CS6, freeSat, SimState.getSat]
  have hpos1 : (CS6.getSat 1).pos = vzero := by
    simp [CS6, freeSat, SimState.getSat]
  have hmv : moveTo (CS6.getSat 0) ((CS6.getSat 1).pos) = CS6.getSat 0 := by
    apply moveTo_self
    rw [hpos0, hpos1]
    simp
  have hdist : mag ((moveTo (CS6.getSat 0) ((CS6.getSat 1).pos)).pos -
      (CS6.getSat 1).pos) < 3 := by
    rw [hmv, hpos0, hpos1]
    simp
  have hfmin : MIN_RESCUE_FUEL ≤ (CS6.getSat 0).fuel - ICE_CONSUMPTION := by
    rw [hfuel0, MIN_RESCUE_FUEL, ICE_CONSUMPTION]
    norm_num
  have htrv : rescueTransfer CS6 0 1 = 10 := by
    rw [rescueTransfer, hfuel0, hfuel1, MIN_RESCUE_FUEL, ICE_CONSUMPTION,
      F_TOTAL, fdiv]
    norm_num
  have htr : 0 < rescueTransfer CS6 0 1 := by
    rw [htrv]
    norm_num
  have hspec := stepSat_rescue_spec (fun _ => vzero) CS6 0 1
    (by simp [CS6]) (by simp [CS6]) (by norm_num) hstat0 htgt0 hfmin hdist htr
  refine ⟨hstat1, hstat0, htgt0, hdist, hfmin, htr, hspec.2.1, ?_⟩
  rw [hspec.2.2.2.1]
  rw [if_neg (by rw [htrv, hfuel1, T_CRITICAL, F_TOTAL]
                 rw [min_eq_left (by norm_num)]
                 norm_num)]
  exact hstat1

/-- Claim C6, witness: in `CW6` the three amended transitions all fire — the
low free agent 2 turns `weak`, the empty free agent 3 turns `dead`, and the
rescue of victim 1 (dead at fuel 8) succeeds, strictly increasing its fuel
within `F_TOTAL`, with the victim's status given by the `T_CRITICAL`
test. -/
theorem C6_witness :
    ((stepSat (fun _ => vzero) 2 CW6).getSat 2).status = .weak ∧
    ((stepSat (fun _ => vzero) 3 CW6).getSat 3).status = .dead ∧
    (CW6.getSat 1).fuel < ((stepSat (fun _ => vzero) 0 CW6).getSat 1).fuel ∧
    ((stepSat (fun _ => vzero) 0 CW6).getSat 1).fuel ≤ F_TOTAL ∧
    ((stepSat (fun _ => vzero) 0 CW6).getSat 1).status =
      (if T_CRITICAL < min ((CW6.getSat 1).fuel + rescueTransfer CW6 0 1)
          F_TOTAL then Status.free else (CW6.getSat 1).status) ∧
    ((stepSat (fun _ => vzero) 0 CW6).getSat 0).status = .returning := by
  have hstat0 : (CW6.getSat 0).status = .rescue := by
    simp [CW6, freeSat, SimState.getSat]
  have htgt0 : (CW6.getSat 0).target = some (.sat 1) := by
    simp [CW6, freeSat, SimState.getSat]
  have hfuel0 : (CW6.getSat 0).fuel = 100 + 3 / 100 := by
    simp [CW6, freeSat, SimState.getSat]
  have hfuel1 : (CW6.getSat 1).fuel = 8 := by
    simp [CW6, freeSat, SimState.getSat]
  have hpos0 : (CW6.getSat 0).pos = vzero := by
    simp [CW6, freeSat, SimState.getSat]
  have hpos1 : (CW6.getSat 1).pos = vzero := by
    simp [CW6, freeSat, SimState.getSat]
  have hstat2 : (CW6.getSat 2).status = .free := by
    simp [CW6, freeSat, SimState.getSat]
  have hfuel2 : (CW6.getSat 2).fuel = 10 := by
    simp [CW6, freeSat, SimState.getSat]
  have hstat3 : (CW6.getSat 3).status = .free := by
    simp [CW6, freeSat, SimState.getSat]
  have hfuel3 : (CW6.getSat 3).fuel = 1 / 100 := by
    simp [CW6, freeSat, SimState.getSat]
  have ha := (C6_transitions).1 (fun _ => vzero) CW6 2 (by simp [CW6]) hstat2
    (by rw [hfuel2, ICE_CONSUMPTION]; norm_num)
    (by rw [hfuel2, ICE_CONSUMPTION, T_CRITICAL]; norm_num)
  have hb := (C6_transitions).2.1 (fun _ => vzero) CW6 3 (by simp [CW6])
    (by rw [hfuel3, hstat3, drainRate]
        simp
        rw [ICE_CONSUMPTION]
        norm_num)
  have hc := (C6_transitions).2.2 (fun _ => vzero) CW6 0 1
    (by simp [CW6]) (by simp [CW6]) (by norm_num) hstat0 htgt0
    (by rw [hfuel0, MIN_RESCUE_FUEL, ICE_CONSUMPTION]; norm_num)
    (by rw [moveTo_self _ _ (by rw [hpos0, hpos1]; simp), hpos0, hpos1]
        simp)
    (by rw [rescueTransfer, hfuel0, hfuel1, MIN_RESCUE_FUEL, ICE_CONSUMPTION,
          F_TOTAL, fdiv]
        norm_num)
  exact ⟨ha, hb, hc.1, hc.2.1, hc.2.2.1, hc.2.2.2⟩

/-! # Claim C8 -/

/-- Claim C8: a `returning` agent (with fuel left after the drain) that ends
its movement within the base arrival radius is reset to `fuel = F_TOTAL`,
`status = free`, `role = none`, `beacon_pair = none` with the fresh random
velocity — for every prior state, hence independently of its earlier
statuses, roles, bonds or references. -/
theorem C8_return_reset (rvel : ℕ → Vec3) (st : SimState) (i : ℕ)
    (hi : i < st.sats.length)
    (hstat : (st.getSat i).status = .returning)
    (hpos : 0 < (st.getSat i).fuel - ICE_CONSUMPTION)
    (harr : mag ((moveTo (st.getSat i) BASE_POS).pos - BASE_POS) < 3) :
    ((stepSat rvel i st).getSat i).fuel = F_TOTAL ∧
    ((stepSat rvel i st).getSat i).status = .free ∧
    ((stepSat rvel i st).getSat i).vel = rvel i ∧
    ((stepSat rvel i st).getSat i).role = none ∧
    ((stepSat rvel i st).getSat i).beacon_pair = none :=
  stepSat_returning_reset rvel st i hi hstat hpos harr

/-- Claim C8, witness: the returning agent of `CW8` — carrying a stale
role, a dangling bond pair and a stale target reference — arrives at base
and is reset. -/
theorem C8_witness :
    ((stepSat (fun _ => Vec3.mk 1 2 3) 0 CW8).getSat 0).fuel = F_TOTAL ∧
    ((stepSat (fun _ => Vec3.mk 1 2 3) 0 CW8).getSat 0).status = .free ∧
    ((stepSat (fun _ => Vec3.mk 1 2 3) 0 CW8).getSat 0).vel = Vec3.mk 1 2 3 ∧
    ((stepSat (fun _ => Vec3.mk 1 2 3) 0 CW8).getSat 0).role = none ∧
    ((stepSat (fun _ => Vec3.mk 1 2 3) 0 CW8).getSat 0).beacon_pair = none := by
  have hs0 : (CW8.getSat 0).pos = vzero := by
    simp [CW8, SimState.getSat]
  have hmv : moveTo (CW8.getSat 0) BASE_POS = CW8.getSat 0 := by
    apply moveTo_self
    rw [hs0]
    simp [BASE_POS]
  exact C8_return_reset (fun _ => Vec3.mk 1 2 3) CW8 0 (by simp [CW8])
    (by simp [CW8, SimState.getSat])
    (by simp [CW8, SimState.getSat, ICE_CONSUMPTION]; norm_num)
    (by rw [hmv, hs0]; simp [BASE_POS])

/-! ## Fuel upper-bound preservation machinery -/

theorem FuelUB_setSat (st : SimState) (i : ℕ) (s : Satellite)
    (h : FuelUB st) (hs : s.fuel ≤ F_TOTAL) : FuelUB (st.setSat i s) := by
  intro j
  rw [getSat_setSat]
  split
  · exact hs
  · exact h j

theorem BeaconOK_setSat (st : SimState) (i : ℕ) (s : Satellite)
    (h : BeaconOK st)
    (hs : s.status = .beacon → s.vel = vzero ∧ s.role ≠ none) :
    BeaconOK (st.setSat i s) := by
  intro j
  rw [getSat_setSat]
  split
  · exact hs
  · exact h j

/-- One agent step preserves the fuel upper bound. -/
theorem moveStep_fuel (st : SimState) (i : ℕ) :
    (moveStep st i).fuel = (st.getSat i).fuel := by
  rw [moveStep]
  split
  · split <;> simp
  · split
    · split <;> simp
    · split
      · simp
      · split <;> simp

theorem moveStep_status (st : SimState) (i : ℕ) :
    (moveStep st i).status = (st.getSat i).status := by
  rw [moveStep]
  split
  · split <;> simp
  · split
    · split <;> simp
    · split
      · simp
      · split <;> simp

/-- The drain/transition/reset phase keeps fuel at or below `F_TOTAL`. -/
theorem drainTrans_fuel_cap (rvel : ℕ → Vec3) (i : ℕ) (s2 : Satellite)
    (h : s2.fuel ≤ F_TOTAL) : (drainTrans rvel i s2).fuel ≤ F_TOTAL := by
  have hICE : (0 : ℝ) < ICE_CONSUMPTION := by
    rw [ICE_CONSUMPTION]
    norm_num
  rw [drainTrans]
  repeat' split
  all_goals try dsimp only
  all_goals linarith

/-- The drain/transition/reset phase never produces a beacon from a
non-beacon. -/
theorem drainTrans_not_beacon (rvel : ℕ → Vec3) (i : ℕ) (s2 : Satellite)
    (h : s2.status ≠ .beacon) : (drainTrans rvel i s2).status ≠ .beacon := by
  rw [drainTrans]
  repeat' split
  all_goals simp
  all_goals exact h

/-- The rescue phase preserves the fuel upper bound given a capped
stepping satellite. -/
theorem rescuePhase_FuelUB (rvel : ℕ → Vec3) (i : ℕ) (st : SimState)
    (s5 : Satellite) (h : FuelUB st) (h5 : s5.fuel ≤ F_TOTAL) :
    FuelUB (rescuePhase rvel i st s5) := by
  rw [rescuePhase]
  split
  · rename_i j heq
    split
    · split
      · dsimp only
        split
        · rename_i htr
          apply FuelUB_setSat
          · apply FuelUB_setSat _ _ _ h
            split <;>
              · dsimp only
                exact min_le_right _ _
          · dsimp only
            linarith
        · exact FuelUB_setSat _ _ _ h h5
      · exact FuelUB_setSat _ _ _ h h5
    · exact FuelUB_setSat _ _ _ h h5
  · exact FuelUB_setSat _ _ _ h h5

/-- One agent step preserves the fuel upper bound. -/
theorem stepSat_FuelUB (rvel : ℕ → Vec3) (i : ℕ) (st : SimState)
    (h : FuelUB st) : FuelUB (stepSat rvel i st) := by
  have hfi := h i
  have hICE : (0 : ℝ) < ICE_CONSUMPTION := by
    rw [ICE_CONSUMPTION]
    norm_num
  rw [stepSat]
  dsimp only
  split
  · apply FuelUB_setSat _ _ _ h
    split <;>
      · dsimp only
        linarith
  · split
    · apply FuelUB_setSat _ _ _ h
      split <;>
        · dsimp only
          linarith
    · apply rescuePhase_FuelUB _ _ _ _ h
      apply drainTrans_fuel_cap
      rw [reflect_fuel, moveStep_fuel]
      exact hfi

/-! ## Triplet-formation characterization -/

theorem mem_eligibleFree (st : SimState) (x : ℕ) :
    x ∈ eligibleFree st ↔
      x < st.sats.length ∧ (st.getSat x).status = .free ∧
        (st.getSat x).fuel ≥ T_LOW := by
  rw [eligibleFree, mem_filterP, List.mem_range]

theorem ftPool_subset (st : SimState) (br : ℝ) (tp : ℕ) (x : ℕ)
    (hx : x ∈ ftPool st br tp) : x ∈ eligibleFree st := by
  rw [ftPool] at hx
  split at hx
  · exact hx
  · dsimp only at hx
    split at hx
    · exact ((mem_filterP _ _ _).mp hx).1
    · exact hx

theorem ftPool_len (st : SimState) (br : ℝ) (tp : ℕ)
    (hfree : ¬ (eligibleFree st).length < 3) : 3 ≤ (ftPool st br tp).length := by
  rw [ftPool]
  split
  · omega
  · dsimp only
    split
    · rename_i hn
      exact hn
    · omega

theorem eligibleFree_nodup (st : SimState) : (eligibleFree st).Nodup :=
  filterP_nodup _ _ (List.nodup_range _)

theorem ftPool_nodup (st : SimState) (br : ℝ) (tp : ℕ) :
    (ftPool st br tp).Nodup := by
  rw [ftPool]
  split
  · exact eligibleFree_nodup st
  · dsimp only
    split
    · exact filterP_nodup _ _ (eligibleFree_nodup st)
    · exact eligibleFree_nodup st

theorem ftSeed_mem (st : SimState) (br : ℝ) (tp sp : ℕ)
    (hfree : ¬ (eligibleFree st).length < 3) :
    ftSeed st br tp sp ∈ ftPool st br tp := by
  rw [ftSeed]
  apply getD_mem
  apply Nat.mod_lt
  have := ftPool_len st br tp hfree
  omega

theorem ftNeighbors_sub (st : SimState) (br : ℝ) (tp sp : ℕ) (x : ℕ)
    (hx : x ∈ ftNeighbors st br tp sp) :
    x ∈ ftPool st br tp ∧ x ≠ ftSeed st br tp sp ∧
      mag ((st.getSat x).pos - (st.getSat (ftSeed st br tp sp)).pos) ≤ br := by
  rw [ftNeighbors, mem_filterP] at hx
  exact ⟨hx.1, hx.2.1, hx.2.2⟩

theorem ftNeighbors_nodup (st : SimState) (br : ℝ) (tp sp : ℕ) :
    (ftNeighbors st br tp sp).Nodup :=
  filterP_nodup _ _ (ftPool_nodup st br tp)

theorem ftSorted_perm (st : SimState) (br : ℝ) (tp sp : ℕ) :
    List.Perm (ftSorted st br tp sp) (ftNeighbors st br tp sp) :=
  List.perm_insertionSort _ _

theorem ftSorted_nodup (st : SimState) (br : ℝ) (tp sp : ℕ) :
    (ftSorted st br tp sp).Nodup :=
  ((ftSorted_perm st br tp sp).nodup_iff).mpr (ftNeighbors_nodup st br tp sp)

theorem ftSorted_sorted (st : SimState) (br : ℝ) (tp sp : ℕ) :
    (ftSorted st br tp sp).Sorted (fun a b =>
      mag ((st.getSat a).pos - (st.getSat (ftSeed st br tp sp)).pos) ≤
      mag ((st.getSat b).pos - (st.getSat (ftSeed st br tp sp)).pos)) := by
  haveI ht : IsTotal ℕ (fun a b =>
      mag ((st.getSat a).pos - (st.getSat (ftSeed st br tp sp)).pos) ≤
      mag ((st.getSat b).pos - (st.getSat (ftSeed st br tp sp)).pos)) :=
    ⟨fun a b => le_total _ _⟩
  haveI htr : IsTrans ℕ (fun a b =>
      mag ((st.getSat a).pos - (st.getSat (ftSeed st br tp sp)).pos) ≤
      mag ((st.getSat b).pos - (st.getSat (ftSeed st br tp sp)).pos)) :=
    ⟨fun a b c hab hbc => le_trans hab hbc⟩
  exact List.sorted_insertionSort _ _

/-- With at least two neighbours, the sorted list starts with two distinct
entries. -/
theorem ftSorted_head_two (st : SimState) (br : ℝ) (tp sp : ℕ)
    (hnb : ¬ (ftNeighbors st br tp sp).length < 2) :
    ∃ tl, ftSorted st br tp sp =
      (ftSorted st br tp sp).getD 0 0 ::
        (ftSorted st br tp sp).getD 1 0 :: tl := by
  have hlen : 2 ≤ (ftSorted st br tp sp).length := by
    rw [(ftSorted_perm st br tp sp).length_eq]
    omega
  rcases hL : ftSorted st br tp sp with _ | ⟨a, _ | ⟨b, tl⟩⟩
  · rw [hL] at hlen
    simp at hlen
  · rw [hL] at hlen
    simp at hlen
  · exact ⟨tl, by simp⟩

theorem formTriplet_fail1 (st : SimState) (br : ℝ) (tp sp : ℕ)
    (h : (eligibleFree st).length < 3) : formTriplet st br tp sp = (st, none) := by
  rw [formTriplet]
  dsimp only
  rw [if_pos h]

theorem formTriplet_fail2 (st : SimState) (br : ℝ) (tp sp : ℕ)
    (h1 : ¬ (eligibleFree st).length < 3)
    (h2 : (ftNeighbors st br tp sp).length < 2) :
    formTriplet st br tp sp = (st, none) := by
  rw [formTriplet]
  dsimp only
  rw [if_neg h1, if_pos h2]

theorem formTriplet_res (st : SimState) (br : ℝ) (tp sp : ℕ)
    (hfree : ¬ (eligibleFree st).length < 3)
    (hnb : ¬ (ftNeighbors st br tp sp).length < 2) :
    (formTriplet st br tp sp).2 =
      some (ftSeed st br tp sp, (ftSorted st br tp sp).getD 0 0,
        (ftSorted st br tp sp).getD 1 0) := by
  rw [formTriplet]
  dsimp only
  rw [if_neg hfree, if_neg hnb]

theorem formTriplet_succ (st : SimState) (br : ℝ) (tp sp : ℕ)
    (hfree : ¬ (eligibleFree st).length < 3)
    (hnb : ¬ (ftNeighbors st br tp sp).length < 2) :
    formTriplet st br tp sp =
      (ftApply st (ftSeed st br tp sp) ((ftSorted st br tp sp).getD 0 0)
        ((ftSorted st br tp sp).getD 1 0),
       some (ftSeed st br tp sp, (ftSorted st br tp sp).getD 0 0,
        (ftSorted st br tp sp).getD 1 0)) := by
  rw [formTriplet]
  dsimp only
  rw [if_neg hfree, if_neg hnb]

theorem ftApply_tgts (st : SimState) (s1 s2 s3 : ℕ) :
    (ftApply st s1 s2 s3).tgts = st.tgts := by
  simp [ftApply, apply_ite SimState.tgts]

theorem ftApply_sat1 (st : SimState) (s1 s2 s3 : ℕ)
    (hd12 : s1 ≠ s2) (hd13 : s1 ≠ s3) (hd23 : s2 ≠ s3)
    (h1 : s1 < st.sats.length) (h2 : s2 < st.sats.length)
    (h3 : s3 < st.sats.length) :
    (ftApply st s1 s2 s3).getSat s1 =
      { st.getSat s1 with
        status := .builder
        beacon_pair := some (s2, s3)
        fuel := (st.getSat s1).fuel - T_LOW * (2 / 10) } := by
  by_cases hf : (st.getSat s2).fuel < (st.getSat s3).fuel <;>
    simp [ftApply, getSat_setSat, h1, h2, h3, hd12, hd13, hd23,
      hd12.symm, hd13.symm, hd23.symm, hf]

theorem ftApply_sat2 (st : SimState) (s1 s2 s3 : ℕ)
    (hd12 : s1 ≠ s2) (hd13 : s1 ≠ s3) (hd23 : s2 ≠ s3)
    (h1 : s1 < st.sats.length) (h2 : s2 < st.sats.length)
    (h3 : s3 < st.sats.length) :
    (ftApply st s1 s2 s3).getSat s2 =
      { st.getSat s2 with
        status := .beacon
        vel := vzero
        role := some (if (st.getSat s2).fuel < (st.getSat s3).fuel
          then Role.commander else Role.reserver)
        fuel := (st.getSat s2).fuel - T_LOW * (2 / 10) } := by
  by_cases hf : (st.getSat s2).fuel < (st.getSat s3).fuel <;>
    simp [ftApply, getSat_setSat, h1, h2, h3, hd12, hd13, hd23,
      hd12.symm, hd13.symm, hd23.symm, hf]

theorem ftApply_sat3 (st : SimState) (s1 s2 s3 : ℕ)
    (hd12 : s1 ≠ s2) (hd13 : s1 ≠ s3) (hd23 : s2 ≠ s3)
    (h1 : s1 < st.sats.length) (h2 : s2 < st.sats.length)
    (h3 : s3 < st.sats.length) :
    (ftApply st s1 s2 s3).getSat s3 =
      { st.getSat s3 with
        status := .beacon
        vel := vzero
        role := some (if (st.getSat s2).fuel < (st.getSat s3).fuel
          then Role.reserver else Role.commander)
        fuel := (st.getSat s3).fuel - T_LOW * (2 / 10) } := by
  by_cases hf : (st.getSat s2).fuel < (st.getSat s3).fuel <;>
    simp [ftApply, getSat_setSat, h1, h2, h3, hd12, hd13, hd23,
      hd12.symm, hd13.symm, hd23.symm, hf]

theorem ftApply_frame (st : SimState) (s1 s2 s3 j : ℕ)
    (hj1 : j ≠ s1) (hj2 : j ≠ s2) (hj3 : j ≠ s3) :
    (ftApply st s1 s2 s3).getSat j = st.getSat j := by
  simp [ftApply, getSat_setSat_ne, hj1, hj2, hj3,
    apply_ite (fun x : SimState => x.getSat j)]

theorem ftTriple_facts (st : SimState) (br : ℝ) (tp sp : ℕ)
    (hfree : ¬ (eligibleFree st).length < 3)
    (hnb : ¬ (ftNeighbors st br tp sp).length < 2) :
    ftSeed st br tp sp ≠ (ftSorted st br tp sp).getD 0 0 ∧
    ftSeed st br tp sp ≠ (ftSorted st br tp sp).getD 1 0 ∧
    (ftSorted st br tp sp).getD 0 0 ≠ (ftSorted st br tp sp).getD 1 0 ∧
    ftSeed st br tp sp < st.sats.length ∧
    (ftSorted st br tp sp).getD 0 0 < st.sats.length ∧
    (ftSorted st br tp sp).getD 1 0 < st.sats.length ∧
    (ftSorted st br tp sp).getD 0 0 ∈ ftNeighbors st br tp sp ∧
    (ftSorted st br tp sp).getD 1 0 ∈ ftNeighbors st br tp sp := by
  obtain ⟨tl, hL⟩ := ftSorted_head_two st br tp sp hnb
  have hmem2 : (ftSorted st br tp sp).getD 0 0 ∈ ftNeighbors st br tp sp := by
    refine (ftSorted_perm st br tp sp).mem_iff.mp ?_
    rw [hL]
    exact List.mem_cons_self _ _
  have hmem3 : (ftSorted st br tp sp).getD 1 0 ∈ ftNeighbors st br tp sp := by
    refine (ftSorted_perm st br tp sp).mem_iff.mp ?_
    rw [hL]
    exact List.mem_cons_of_mem _ (List.mem_cons_self _ _)
  have hsub2 := ftNeighbors_sub st br tp sp _ hmem2
  have hsub3 := ftNeighbors_sub st br tp sp _ hmem3
  have hseed : ftSeed st br tp sp ∈ eligibleFree st :=
    ftPool_subset st br tp _ (ftSeed_mem st br tp sp hfree)
  have h1 := ((mem_eligibleFree st _).mp hseed).1
  have h2 := ((mem_eligibleFree st _).mp (ftPool_subset st br tp _ hsub2.1)).1
  have h3 := ((mem_eligibleFree st _).mp (ftPool_subset st br tp _ hsub3.1)).1
  have hd23 : (ftSorted st br tp sp).getD 0 0 ≠
      (ftSorted st br tp sp).getD 1 0 := by
    have hnd := ftSorted_nodup st br tp sp
    rw [hL] at hnd
    intro h
    apply (List.nodup_cons.mp hnd).1
    rw [h]
    exact List.mem_cons_self _ _
  exact ⟨hsub2.2.1.symm, hsub3.2.1.symm, hd23, h1, h2, h3, hmem2, hmem3⟩

theorem ftSorted_min (st : SimState) (br : ℝ) (tp sp : ℕ)
    (hnb : ¬ (ftNeighbors st br tp sp).length < 2) :
    mag ((st.getSat ((ftSorted st br tp sp).getD 0 0)).pos -
        (st.getSat (ftSeed st br tp sp)).pos) ≤
      mag ((st.getSat ((ftSorted st br tp sp).getD 1 0)).pos -
        (st.getSat (ftSeed st br tp sp)).pos) ∧
    ∀ k ∈ ftNeighbors st br tp sp, k ≠ (ftSorted st br tp sp).getD 0 0 →
      k ≠ (ftSorted st br tp sp).getD 1 0 →
      mag ((st.getSat ((ftSorted st br tp sp).getD 0 0)).pos -
          (st.getSat (ftSeed st br tp sp)).pos) ≤
        mag ((st.getSat k).pos - (st.getSat (ftSeed st br tp sp)).pos) ∧
      mag ((st.getSat ((ftSorted st br tp sp).getD 1 0)).pos -
          (st.getSat (ftSeed st br tp sp)).pos) ≤
        mag ((st.getSat k).pos - (st.getSat (ftSeed st br tp sp)).pos) := by
  obtain ⟨tl, hL⟩ := ftSorted_head_two st br tp sp hnb
  have hsort := ftSorted_sorted st br tp sp
  rw [hL] at hsort
  rcases List.sorted_cons.mp hsort with ⟨h2all, hsort2⟩
  rcases List.sorted_cons.mp hsort2 with ⟨h3all, -⟩
  refine ⟨h2all _ (List.mem_cons_self _ _), ?_⟩
  intro k hk hk2 hk3
  have hks : k ∈ ftSorted st br tp sp := (ftSorted_perm st br tp sp).mem_iff.mpr hk
  rw [hL] at hks
  rcases List.mem_cons.mp hks with h | hks2
  · exact absurd h hk2
  rcases List.mem_cons.mp hks2 with h | hktl
  · exact absurd h hk3
  exact ⟨h2all _ (List.mem_cons_of_mem _ hktl), h3all _ hktl⟩

/-- Claim C1, counterexample to the claim as stated: the dead satellite of
`CS1` holds exactly 0 fuel, and one step drains it below zero — the code
never clamps fuel at 0, so `0 ≤ fuel` is violated at a tick boundary. -/
theorem C1_counterexample :
    (CS1.getSat 0).fuel = 0 ∧
    ((stepSat (fun _ => vzero) 0 CS1).getSat 0).fuel < 0 := by
  constructor
  · simp [CS1, freeSat, SimState.getSat]
  · norm_num +decide [stepSat, moveStep, drainTrans, rescuePhase, CS1,
      freeSat, SimState.getSat, SimState.setSat, defaultSat, reflect, moveTo,
      randomRoam, ICE_CONSUMPTION, T_CRITICAL, MIN_RESCUE_FUEL, F_TOTAL,
      BASE_POS, mag]

/-- Claim C3 (corrected): when at least three eligible free agents exist and
the seed drawn from the (possibly target-narrowed) pool has at least two
pool neighbors within the bond radius, `form_triplet` succeeds and yields
exactly one new builder (the seed, bonded to the two beacons, charged
`T_LOW * 0.2`) and two beacons (the two nearest neighbors *within the
pool*, velocity zero, lower-fuel one commander), all other agents and all
targets unchanged. The original claim's "two nearest eligible neighbors"
is wrong: the pool may be narrowed to agents near a random unbuilt target
(lines 447-455), skipping nearer eligible agents outside it. -/
theorem C3_triad (st : SimState) (br : ℝ) (tp sp : ℕ)
    (hfree : ¬ (eligibleFree st).length < 3)
    (hnb : ¬ (ftNeighbors st br tp sp).length < 2) :
    (formTriplet st br tp sp).2 =
      some (ftSeed st br tp sp, (ftSorted st br tp sp).getD 0 0,
        (ftSorted st br tp sp).getD 1 0) ∧
    ((formTriplet st br tp sp).1).getSat (ftSeed st br tp sp) =
      { st.getSat (ftSeed st br tp sp) with
        status := .builder
        beacon_pair := some ((ftSorted st br tp sp).getD 0 0,
          (ftSorted st br tp sp).getD 1 0)
        fuel := (st.getSat (ftSeed st br tp sp)).fuel - T_LOW * (2 / 10) } ∧
    ((formTriplet st br tp sp).1).getSat ((ftSorted st br tp sp).getD 0 0) =
      { st.getSat ((ftSorted st br tp sp).getD 0 0) with
        status := .beacon
        vel := vzero
        role := some (if (st.getSat ((ftSorted st br tp sp).getD 0 0)).fuel <
            (st.getSat ((ftSorted st br tp sp).getD 1 0)).fuel
          then Role.commander else Role.reserver)
        fuel := (st.getSat ((ftSorted st br tp sp).getD 0 0)).fuel -
          T_LOW * (2 / 10) } ∧
    ((formTriplet st br tp sp).1).getSat ((ftSorted st br tp sp).getD 1 0) =
      { st.getSat ((ftSorted st br tp sp).getD 1 0) with
        status := .beacon
        vel := vzero
        role := some (if (st.getSat ((ftSorted st br tp sp).getD 0 0)).fuel <
            (st.getSat ((ftSorted st br tp sp).getD 1 0)).fuel
          then Role.reserver else Role.commander)
        fuel := (st.getSat ((ftSorted st br tp sp).getD 1 0)).fuel -
          T_LOW * (2 / 10) } ∧
    (∀ j, j ≠ ftSeed st br tp sp → j ≠ (ftSorted st br tp sp).getD 0 0 →
      j ≠ (ftSorted st br tp sp).getD 1 0 →
      ((formTriplet st br tp sp).1).getSat j = st.getSat j) ∧
    ((formTriplet st br tp sp).1).tgts = st.tgts ∧
    ((ftSorted st br tp sp).getD 0 0 ∈ ftNeighbors st br tp sp ∧
      (ftSorted st br tp sp).getD 1 0 ∈ ftNeighbors st br tp sp) ∧
    (∀ k ∈ ftNeighbors st br tp sp, k ≠ (ftSorted st br tp sp).getD 0 0 →
      k ≠ (ftSorted st br tp sp).getD 1 0 →
      mag ((st.getSat ((ftSorted st br tp sp).getD 0 0)).pos -
          (st.getSat (ftSeed st br tp sp)).pos) ≤
        mag ((st.getSat k).pos - (st.getSat (ftSeed st br tp sp)).pos) ∧
      mag ((st.getSat ((ftSorted st br tp sp).getD 1 0)).pos -
          (st.getSat (ftSeed st br tp sp)).pos) ≤
        mag ((st.getSat k).pos - (st.getSat (ftSeed st br tp sp)).pos)) := by
  obtain ⟨hd12, hd13, hd23, h1, h2, h3, hm2, hm3⟩ :=
    ftTriple_facts st br tp sp hfree hnb
  have hmin := ftSorted_min st br tp sp hnb
  have hres := formTriplet_succ st br tp sp hfree hnb
  rw [hres]
  dsimp only
  refine ⟨rfl, ?_, ?_, ?_, ?_, ?_, ⟨hm2, hm3⟩, hmin.2⟩
  · exact ftApply_sat1 st _ _ _ hd12 hd13 hd23 h1 h2 h3
  · exact ftApply_sat2 st _ _ _ hd12 hd13 hd23 h1 h2 h3
  · exact ftApply_sat3 st _ _ _ hd12 hd13 hd23 h1 h2 h3
  · intro j hj1 hj2 hj3
    exact ftApply_frame st _ _ _ j hj1 hj2 hj3
  · exact ftApply_tgts st _ _ _

/-- Claim C3, counterexample to the claim as stated: in `CS3` the pool is
narrowed to the agents near the unbuilt target (excluding satellite 1 at
x = 19), so `form_triplet` picks satellites 2 and 3 (distances 5 and 6) as
beacons even though satellite 1 is an eligible free agent within the bond
radius of the seed and strictly nearer (distance 4). -/
theorem C3_counterexample :
    (formTriplet CS3 8 0 0).2 = some (0, 2, 3) ∧
    (CS3.getSat 1).status = .free ∧ T_LOW ≤ (CS3.getSat 1).fuel ∧
    mag ((CS3.getSat 1).pos - (CS3.getSat 0).pos) ≤ 8 ∧
    mag ((CS3.getSat 1).pos - (CS3.getSat 0).pos) <
      mag ((CS3.getSat 2).pos - (CS3.getSat 0).pos) ∧
    mag ((CS3.getSat 1).pos - (CS3.getSat 0).pos) <
      mag ((CS3.getSat 3).pos - (CS3.getSat 0).pos) := by
  have hF : eligibleFree CS3 = [0, 1, 2, 3] := by
    simp [eligibleFree, filterP, CS3, SimState.getSat, freeSat, T_LOW,
      List.range_succ, show (30 : ℝ) ≤ 50 from by norm_num]
  have s15 : Real.sqrt 225 = 15 := sqrt_eval (by norm_num) (by norm_num)
  have s19 : Real.sqrt 361 = 19 := sqrt_eval (by norm_num) (by norm_num)
  have s10 : Real.sqrt 100 = 10 := sqrt_eval (by norm_num) (by norm_num)
  have s9 : Real.sqrt 81 = 9 := sqrt_eval (by norm_num) (by norm_num)
  have s2d : Real.sqrt 25 = 5 := sqrt_eval (by norm_num) (by norm_num)
  have s3d : Real.sqrt 36 = 6 := sqrt_eval (by norm_num) (by norm_num)
  have s1d : Real.sqrt 16 = 4 := sqrt_eval (by norm_num) (by norm_num)
  have hP : ftPool CS3 8 0 = [0, 2, 3] := by
    rw [ftPool]
    simp only [hF]
    norm_num [CS3, SimState.getTgt, SimState.getSat, freeSat, filterP,
      List.range_succ, s15, s19, s10, s9]
  have hS : ftSeed CS3 8 0 0 = 0 := by
    simp [ftSeed, hP]
  have hN : ftNeighbors CS3 8 0 0 = [2, 3] := by
    rw [ftNeighbors, hS, hP]
    norm_num [CS3, SimState.getSat, freeSat, filterP, s2d, s3d]
  have hSo : ftSorted CS3 8 0 0 = [2, 3] := by
    rw [ftSorted, hS, hN]
    norm_num [List.insertionSort, List.orderedInsert, CS3, SimState.getSat,
      freeSat, s2d, s3d]
  have hfree3 : ¬ (eligibleFree CS3).length < 3 := by
    rw [hF]
    norm_num
  have hnb3 : ¬ (ftNeighbors CS3 8 0 0).length < 2 := by
    rw [hN]
    norm_num
  have hres := formTriplet_succ CS3 8 0 0 hfree3 hnb3
  refine ⟨?_, ?_, ?_, ?_, ?_, ?_⟩
  · rw [hres]
    simp [hS, hSo]
  · simp [CS3, SimState.getSat, freeSat]
  · rw [T_LOW]
    norm_num [CS3, SimState.getSat, freeSat]
  · norm_num [CS3, SimState.getSat, freeSat, s1d]
  · norm_num [CS3, SimState.getSat, freeSat, s1d, s2d]
  · norm_num [CS3, SimState.getSat, freeSat, s1d, s3d]

theorem CS9_eval :
    (¬ (eligibleFree CS9).length < 3) ∧
    (¬ (ftNeighbors CS9 8 0 0).length < 2) ∧
    ftSeed CS9 8 0 0 = 0 ∧ ftSorted CS9 8 0 0 = [1, 2] := by
  have hF : eligibleFree CS9 = [0, 1, 2] := by
    simp [eligibleFree, filterP, CS9, SimState.getSat, freeSat, T_LOW,
      List.range_succ]
  have hP : ftPool CS9 8 0 = [0, 1, 2] := by
    have ht : CS9.tgts.length = 0 := rfl
    rw [ftPool]
    simp [ht, filterP, hF]
  have hS : ftSeed CS9 8 0 0 = 0 := by
    simp [ftSeed, hP]
  have hN : ftNeighbors CS9 8 0 0 = [1, 2] := by
    rw [ftNeighbors, hS, hP]
    norm_num [CS9, SimState.getSat, freeSat, filterP, Real.sqrt_zero]
  have hSo : ftSorted CS9 8 0 0 = [1, 2] := by
    rw [ftSorted, hS, hN]
    norm_num [List.insertionSort, List.orderedInsert, CS9, SimState.getSat,
      freeSat, Real.sqrt_zero]
  refine ⟨by rw [hF]; norm_num, by rw [hN]; norm_num, hS, hSo⟩

/-- Claim C3, witness: in `CS9` (three co-located eligible free agents)
both hypotheses of the amended theorem hold and the formation succeeds on
seed 0 with beacons 1 and 2. -/
theorem C3_witness :
    (¬ (eligibleFree CS9).length < 3) ∧
    (¬ (ftNeighbors CS9 8 0 0).length < 2) ∧
    (formTriplet CS9 8 0 0).2 =
      some (ftSeed CS9 8 0 0, (ftSorted CS9 8 0 0).getD 0 0,
        (ftSorted CS9 8 0 0).getD 1 0) := by
  obtain ⟨hfree9, hnb9, -, -⟩ := CS9_eval
  exact ⟨hfree9, hnb9, (C3_triad CS9 8 0 0 hfree9 hnb9).1⟩

/-- Claim C9 (confirmed): every successful triad formation charges each of
the three participants exactly `T_LOW * 0.2` from a pre-formation fuel of
at least `T_LOW`, so each post-formation fuel is at least `0.8 * T_LOW`,
strictly above `T_CRITICAL`, and the participants end in statuses
builder/beacon (never weak or dead); in `CS9` the new builder is
nonetheless left below `T_LOW` (30 - 6 = 24 < 30). -/
theorem C9_formation_fuel (st : SimState) (br : ℝ) (tp sp : ℕ)
    (hfree : ¬ (eligibleFree st).length < 3)
    (hnb : ¬ (ftNeighbors st br tp sp).length < 2) :
    (T_LOW ≤ (st.getSat (ftSeed st br tp sp)).fuel ∧
     T_LOW ≤ (st.getSat ((ftSorted st br tp sp).getD 0 0)).fuel ∧
     T_LOW ≤ (st.getSat ((ftSorted st br tp sp).getD 1 0)).fuel) ∧
    ((((formTriplet st br tp sp).1).getSat (ftSeed st br tp sp)).fuel =
      (st.getSat (ftSeed st br tp sp)).fuel - T_LOW * (2 / 10) ∧
     (((formTriplet st br tp sp).1).getSat
        ((ftSorted st br tp sp).getD 0 0)).fuel =
      (st.getSat ((ftSorted st br tp sp).getD 0 0)).fuel - T_LOW * (2 / 10) ∧
     (((formTriplet st br tp sp).1).getSat
        ((ftSorted st br tp sp).getD 1 0)).fuel =
      (st.getSat ((ftSorted st br tp sp).getD 1 0)).fuel - T_LOW * (2 / 10)) ∧
    (T_CRITICAL <
      (((formTriplet st br tp sp).1).getSat (ftSeed st br tp sp)).fuel ∧
     T_CRITICAL < (((formTriplet st br tp sp).1).getSat
        ((ftSorted st br tp sp).getD 0 0)).fuel ∧
     T_CRITICAL < (((formTriplet st br tp sp).1).getSat
        ((ftSorted st br tp sp).getD 1 0)).fuel) ∧
    ((((formTriplet st br tp sp).1).getSat (ftSeed st br tp sp)).status =
        .builder ∧
     (((formTriplet st br tp sp).1).getSat
        ((ftSorted st br tp sp).getD 0 0)).status = .beacon ∧
     (((formTriplet st br tp sp).1).getSat
        ((ftSorted st br tp sp).getD 1 0)).status = .beacon) ∧
    (((formTriplet CS9 8 0 0).1).getSat (ftSeed CS9 8 0 0)).fuel < T_LOW := by
  obtain ⟨hd12, hd13, hd23, h1, h2, h3, hm2, hm3⟩ :=
    ftTriple_facts st br tp sp hfree hnb
  have hsub2 := ftNeighbors_sub st br tp sp _ hm2
  have hsub3 := ftNeighbors_sub st br tp sp _ hm3
  have hf1 : T_LOW ≤ (st.getSat (ftSeed st br tp sp)).fuel :=
    ((mem_eligibleFree st _).mp
      (ftPool_subset st br tp _ (ftSeed_mem st br tp sp hfree))).2.2
  have hf2 : T_LOW ≤ (st.getSat ((ftSorted st br tp sp).getD 0 0)).fuel :=
    ((mem_eligibleFree st _).mp (ftPool_subset st br tp _ hsub2.1)).2.2
  have hf3 : T_LOW ≤ (st.getSat ((ftSorted st br tp sp).getD 1 0)).fuel :=
    ((mem_eligibleFree st _).mp (ftPool_subset st br tp _ hsub3.1)).2.2
  have hres := formTriplet_succ st br tp sp hfree hnb
  have e1 := ftApply_sat1 st _ _ _ hd12 hd13 hd23 h1 h2 h3
  have e2 := ftApply_sat2 st _ _ _ hd12 hd13 hd23 h1 h2 h3
  have e3 := ftApply_sat3 st _ _ _ hd12 hd13 hd23 h1 h2 h3
  have key : ∀ x : ℝ, T_LOW ≤ x → T_CRITICAL < x - T_LOW * (2 / 10) := by
    intro x hx
    rw [T_LOW] at hx
    rw [T_CRITICAL, T_LOW]
    linarith
  have hcs9 : (((formTriplet CS9 8 0 0).1).getSat
      (ftSeed CS9 8 0 0)).fuel < T_LOW := by
    obtain ⟨h9f, h9n, h9s, h9o⟩ := CS9_eval
    have hres9 := formTriplet_succ CS9 8 0 0 h9f h9n
    rw [hres9]
    dsimp only
    rw [h9s, h9o]
    show ((ftApply CS9 0 1 2).getSat 0).fuel < T_LOW
    have e9 := ftApply_sat1 CS9 0 1 2 (by norm_num) (by norm_num)
      (by norm_num) (by simp [CS9]) (by simp [CS9]) (by simp [CS9])
    rw [e9]
    norm_num [CS9, SimState.getSat, freeSat, T_LOW]
  rw [hres]
  dsimp only
  rw [e1, e2, e3]
  exact ⟨⟨hf1, hf2, hf3⟩, ⟨rfl, rfl, rfl⟩,
    ⟨key _ hf1, key _ hf2, key _ hf3⟩, ⟨rfl, rfl, rfl⟩, hcs9⟩

/-- Claim C9, witness: at `CS9` both hypotheses hold and the new builder's
post-formation fuel is strictly above `T_CRITICAL`. -/
theorem C9_witness :
    (¬ (eligibleFree CS9).length < 3) ∧
    (¬ (ftNeighbors CS9 8 0 0).length < 2) ∧
    T_CRITICAL <
      (((formTriplet CS9 8 0 0).1).getSat (ftSeed CS9 8 0 0)).fuel := by
  obtain ⟨h9f, h9n, -, -⟩ := CS9_eval
  exact ⟨h9f, h9n, (C9_formation_fuel CS9 8 0 0 h9f h9n).2.2.1.1⟩

/-! # Lock-invariant lemmas (claim C2) -/

/-- `getTgt` after `setTgt`, all cases. -/
theorem getTgt_setTgt (st : SimState) (t : ℕ) (x : TargetPoint) (u : ℕ) :
    (st.setTgt t x).getTgt u =
      if u = t ∧ t < st.tgts.length then x else st.getTgt u := by
  by_cases hu : u = t
  · subst hu
    by_cases hl : u < st.tgts.length
    · rw [getTgt_setTgt_self st u x hl, if_pos ⟨rfl, hl⟩]
    · rw [if_neg (fun hc => hl hc.2)]
      simp [SimState.setTgt, SimState.getTgt, List.getD_eq_getElem?_getD,
        List.getElem?_set, hl, List.getElem?_eq_none (Nat.le_of_not_lt hl)]
  · rw [getTgt_setTgt_ne st t x u hu, if_neg (fun hc => hu hc.1)]

theorem foldl_preserve {P : SimState → Prop} (f : ℕ → SimState → SimState)
    (h : ∀ i s, P s → P (f i s)) (l : List ℕ) :
    ∀ s, P s → P (l.foldl (fun acc i => f i acc) s) := by
  induction l with
  | nil =>
      intro s hs
      exact hs
  | cons i tl ih =>
      intro s hs
      rw [List.foldl_cons]
      exact ih _ (h i s hs)

theorem tgts_freeBeaconPair (bvel : ℕ → Vec3) (i : ℕ) (st : SimState) :
    (freeBeaconPair bvel i st).tgts = st.tgts := by
  rcases hbp : (st.getSat i).beacon_pair with _ | ⟨b1, b2⟩ <;>
    simp [freeBeaconPair, hbp]

theorem tgts_refuelBuilder (st : SimState) (b : ℕ) :
    (refuelBuilder st b).1.tgts = st.tgts := by
  rcases hbp : (st.getSat b).beacon_pair with _ | ⟨c, r⟩
  · simp [refuelBuilder, hbp]
  · simp only [refuelBuilder, hbp]
    split
    · split
      · rfl
      · split <;> rfl
    · rfl

theorem tgts_completeTarget (sd : ℕ → ℝ) (bvel : ℕ → Vec3) (i tIdx : ℕ)
    (st : SimState) :
    (completeTarget sd bvel i tIdx st).tgts =
      st.tgts.set tIdx
        { st.getTgt tIdx with
          built := true
          locked := false
          builder := none } := by
  rw [completeTarget]
  dsimp only
  repeat' split
  all_goals simp [tgts_freeBeaconPair, tgts_refuelBuilder, SimState.setTgt]

theorem tgts_releaseNoTargets (bvel : ℕ → Vec3) (i : ℕ) (st : SimState) :
    (releaseNoTargets bvel i st).tgts = st.tgts := by
  rw [releaseNoTargets]
  rw [tgts_setSat, tgts_freeBeaconPair, tgts_setSat]

theorem LockOwned_of_tgts (st st' : SimState) (he : st'.tgts = st.tgts)
    (h : LockOwned st) : LockOwned st' := by
  intro u hu
  have h2 : st'.getTgt u = st.getTgt u := by
    simp only [SimState.getTgt, he]
  rw [h2] at hu ⊢
  exact h u hu

theorem LockOwned_setSat (st : SimState) (i : ℕ) (s : Satellite)
    (h : LockOwned st) : LockOwned (st.setSat i s) :=
  LockOwned_of_tgts st _ (tgts_setSat st i s) h

theorem LockOwned_setTgt (st : SimState) (t : ℕ) (x : TargetPoint)
    (hx : x.locked = true → x.builder ≠ none) (h : LockOwned st) :
    LockOwned (st.setTgt t x) := by
  intro u hu
  by_cases hc : u = t ∧ t < st.tgts.length
  · rw [getTgt_setTgt, if_pos hc] at hu ⊢
    exact hx hu
  · rw [getTgt_setTgt, if_neg hc] at hu ⊢
    exact h u hu

theorem LockOwned_completeTarget (sd : ℕ → ℝ) (bvel : ℕ → Vec3) (i tIdx : ℕ)
    (st : SimState) (h : LockOwned st) :
    LockOwned (completeTarget sd bvel i tIdx st) := by
  refine LockOwned_of_tgts
    (st.setTgt tIdx
      { st.getTgt tIdx with
        built := true
        locked := false
        builder := none }) _ (by rw [tgts_completeTarget]; rfl) ?_
  exact LockOwned_setTgt st tIdx _ (by intro hl; simp at hl) h

theorem LockOwned_afterTarget (sd : ℕ → ℝ) (bvel : ℕ → Vec3) (i tIdx : ℕ)
    (st : SimState) (h : LockOwned st) :
    LockOwned (afterTarget sd bvel i tIdx st) := by
  rw [afterTarget]
  dsimp only
  split
  · split
    · apply LockOwned_completeTarget
      apply LockOwned_setTgt
      · intro hl
        simp only [getTgt_setSat] at hl ⊢
        exact h tIdx hl
      · exact LockOwned_setSat _ _ _ h
    · apply LockOwned_setTgt
      · intro hl
        simp only [getTgt_setSat] at hl ⊢
        exact h tIdx hl
      · exact LockOwned_setSat _ _ _ h
  · exact LockOwned_setSat _ _ _ h

theorem LockOwned_lockTarget (frame : ℤ) (st : SimState) (i c : ℕ)
    (h : LockOwned st) : LockOwned (lockTarget frame st i c) := by
  rw [lockTarget]
  dsimp only
  apply LockOwned_setSat
  apply LockOwned_setTgt
  · intro hl
    simp
  · exact h

theorem LockOwned_releaseNoTargets (bvel : ℕ → Vec3) (i : ℕ) (st : SimState)
    (h : LockOwned st) : LockOwned (releaseNoTargets bvel i st) :=
  LockOwned_of_tgts st _ (tgts_releaseNoTargets bvel i st) h

theorem LockOwned_buildSat (frame : ℤ) (sd : ℕ → ℝ) (bvel : ℕ → Vec3)
    (i : ℕ) (st : SimState) (h : LockOwned st) :
    LockOwned (buildSat frame sd bvel i st) := by
  rw [buildSat]
  split
  · split
    · exact LockOwned_afterTarget _ _ _ _ _ h
    · split
      · exact LockOwned_releaseNoTargets _ _ _ h
      · exact LockOwned_afterTarget _ _ _ _ _ (LockOwned_lockTarget _ _ _ _ h)
  · exact h

theorem getTgt_sweepLocks (st : SimState) (t : ℕ) :
    (sweepLocks st).getTgt t =
      if (st.getTgt t).locked ∧ (match (st.getTgt t).builder with
          | none => True
          | some j => (st.getSat j).status ≠ .builder) then
        { st.getTgt t with locked := false, builder := none }
      else st.getTgt t := by
  by_cases hb : t < st.tgts.length
  · rw [sweepLocks]
    simp only [SimState.getTgt]
    rw [List.getD_eq_getElem?_getD, List.getD_eq_getElem?_getD,
      List.getElem?_map, List.getElem?_eq_getElem hb]
    rfl
  · rw [sweepLocks]
    simp only [SimState.getTgt]
    rw [List.getD_eq_getElem?_getD, List.getD_eq_getElem?_getD,
      List.getElem?_map, List.getElem?_eq_none (Nat.le_of_not_lt hb)]
    dsimp only [Option.map, Option.getD]
    rw [if_neg]
    intro hc
    have hd : defaultTgt.locked = true := hc.1
    simp [defaultTgt] at hd

theorem sweepLocks_LockOwned (st : SimState) : LockOwned (sweepLocks st) := by
  intro t ht
  rw [getTgt_sweepLocks] at ht ⊢
  by_cases hc : (st.getTgt t).locked ∧ (match (st.getTgt t).builder with
      | none => True
      | some j => (st.getSat j).status ≠ .builder)
  · rw [if_pos hc] at ht
    simp at ht
  · rw [if_neg hc] at ht ⊢
    rcases hB : (st.getTgt t).builder with _ | j
    · exact absurd ⟨ht, by rw [hB]; trivial⟩ hc
    · simp [hB]

theorem sweepLocks_ownerBuilder (st : SimState) (t : ℕ)
    (ht : ((sweepLocks st).getTgt t).locked = true) :
    ∃ j, ((sweepLocks st).getTgt t).builder = some j ∧
      (st.getSat j).status = .builder := by
  rw [getTgt_sweepLocks] at ht ⊢
  by_cases hc : (st.getTgt t).locked ∧ (match (st.getTgt t).builder with
      | none => True
      | some j => (st.getSat j).status ≠ .builder)
  · rw [if_pos hc] at ht
    simp at ht
  · rw [if_neg hc] at ht ⊢
    rcases hB : (st.getTgt t).builder with _ | j
    · exact absurd ⟨ht, by rw [hB]; trivial⟩ hc
    · refine ⟨j, rfl, ?_⟩
      by_contra hs
      exact hc ⟨ht, by rw [hB]; exact hs⟩

theorem sweepLocks_releases (st : SimState) (t : ℕ)
    (ht : (st.getTgt t).locked = true)
    (ho : (st.getTgt t).builder = none ∨ ∃ j,
      (st.getTgt t).builder = some j ∧ (st.getSat j).status ≠ .builder) :
    ((sweepLocks st).getTgt t).locked = false ∧
    ((sweepLocks st).getTgt t).builder = none := by
  rw [getTgt_sweepLocks, if_pos]
  · exact ⟨rfl, rfl⟩
  · refine ⟨ht, ?_⟩
    rcases ho with hB | ⟨j, hB, hs⟩
    · rw [hB]
      trivial
    · rw [hB]
      exact hs

theorem buildingStep_LockOwned (frame : ℤ) (sd : ℕ → ℝ) (bvel : ℕ → Vec3)
    (st : SimState) : LockOwned (buildingStep frame sd bvel st) := by
  rw [buildingStep]
  exact foldl_preserve _ (fun i s hs => LockOwned_buildSat frame sd bvel i s hs)
    _ _ (sweepLocks_LockOwned st)

/-- Claim C2 (corrected): after any `building_step` every locked target has
a non-null owner, and the per-tick sweep both (a) guarantees every
surviving lock's owner is currently a builder and (b) releases any lock
whose owner is gone or no longer a builder. The claim's remaining part —
the owner's own target reference always points back at the locked target —
is refuted by `C2_counterexample`: a goal revision locks a new target
without releasing the old one. -/
theorem C2_locks (frame : ℤ) (sd : ℕ → ℝ) (bvel : ℕ → Vec3) (st : SimState) :
    LockOwned (buildingStep frame sd bvel st) ∧
    (∀ t, ((sweepLocks st).getTgt t).locked = true →
      ∃ j, ((sweepLocks st).getTgt t).builder = some j ∧
        (st.getSat j).status = .builder) ∧
    (∀ t, (st.getTgt t).locked = true →
      ((st.getTgt t).builder = none ∨ ∃ j, (st.getTgt t).builder = some j ∧
        (st.getSat j).status ≠ .builder) →
      ((sweepLocks st).getTgt t).locked = false ∧
      ((sweepLocks st).getTgt t).builder = none) :=
  ⟨buildingStep_LockOwned frame sd bvel st,
   fun t ht => sweepLocks_ownerBuilder st t ht,
   fun t ht ho => sweepLocks_releases st t ht ho⟩

/-- Claim C2, witness: in `CW2` the lock's recorded owner is a free agent,
and the sweep releases the lock. -/
theorem C2_witness :
    ((sweepLocks CW2).getTgt 0).locked = false ∧
    ((sweepLocks CW2).getTgt 0).builder = none := by
  exact (C2_locks 0 (fun _ => 1) (fun _ => vzero) CW2).2.2 0
    (by simp [CW2, SimState.getTgt])
    (Or.inr ⟨0, by simp [CW2, SimState.getTgt],
      by simp [CW2, SimState.getSat, freeSat]⟩)

theorem buildSat_skip (frame : ℤ) (sd : ℕ → ℝ) (bvel : ℕ → Vec3) (i : ℕ)
    (st : SimState) (h : (st.getSat i).status ≠ .builder) :
    buildSat frame sd bvel i st = st := by
  rw [buildSat]
  rw [if_neg]
  intro hc
  exact h hc.1

/-- Claim C2, counterexample to the back-reference half: in `CS2` builder 0
holds the lock on target 0 but its goal revision is due; one
`building_step` locks target 1 for it without releasing target 0, leaving
target 0 locked with owner 0 while the owner's target reference points at
target 1. -/
theorem C2_counterexample :
    (CS2.getSat 0).target = some (.tgt 0) ∧
    (CS2.getTgt 0).locked = true ∧
    (CS2.getTgt 0).builder = some 0 ∧
    buildingStep 30 (fun _ => 1) (fun _ => vzero) CS2 = CS2b ∧
    (CS2b.getTgt 0).locked = true ∧
    (CS2b.getTgt 0).builder = some 0 ∧
    (CS2b.getSat 0).target = some (.tgt 1) := by
  have hsw : sweepLocks CS2 = CS2 := by
    simp [sweepLocks, CS2, SimState.getSat, builderSat, beaconSat]
  have hg : (CS2.getSat 0).status = .builder ∧
      (CS2.getSat 0).beacon_pair ≠ none := by
    simp [CS2, SimState.getSat, builderSat]
  have hk : keepTarget 30 CS2 0 = none := by
    norm_num [keepTarget, CS2, SimState.getSat, SimState.getTgt, builderSat,
      GOAL_REVISION_INTERVAL]
  have hul : unbuiltList CS2 = [1] := by
    norm_num [unbuiltList, filterP, CS2, SimState.getTgt, List.range_succ]
  have hcc : ¬ checkCollisionPath CS2 0 1 := by
    simp [checkCollisionPath, collisionScan, CS2, SimState.getSat,
      SimState.getTgt, builderSat, beaconSat]
  have hrc : rankedCandidates CS2 0 [1] = [1] := by
    simp [rankedCandidates, List.insertionSort]
  have hct : chooseTarget CS2 0 = 1 := by
    rw [chooseTarget]
    rw [hul, hrc]
    simp [firstUncontested, hcc]
  have hl : lockTarget 30 CS2 0 1 = CS2a := by
    simp [lockTarget, CS2, CS2a, SimState.setTgt, SimState.setSat,
      SimState.getTgt, SimState.getSat, builderSat, beaconSat, List.set]
  have hmv : moveTo (CS2a.getSat 0) ((CS2a.getTgt 1).pos) = CS2a.getSat 0 := by
    norm_num [moveTo, CS2a, SimState.getSat, SimState.getTgt, beaconSat,
      Real.sqrt_zero]
  have hset : CS2a.setSat 0 (CS2a.getSat 0) = CS2a := by
    simp [CS2a, SimState.setSat, SimState.getSat, List.set]
  have hdist : mag ((CS2a.getSat 0).pos - (CS2a.getTgt 1).pos) <
      ARRIVAL_RADIUS := by
    norm_num [CS2a, SimState.getSat, SimState.getTgt, beaconSat,
      ARRIVAL_RADIUS, Real.sqrt_zero]
  have hst2 : CS2a.setTgt 1
      { CS2a.getTgt 1 with
        build_progress := (CS2a.getTgt 1).build_progress + 5 / 100 } =
        CS2b := by
    simp [CS2a, CS2b, SimState.setTgt, SimState.getTgt, beaconSat, List.set]
  have hprog : ¬ (CS2b.getTgt 1).build_progress ≥ 1 := by
    norm_num [CS2b, SimState.getTgt]
  have ha : afterTarget (fun _ => 1) (fun _ => vzero) 0 1 CS2a = CS2b := by
    rw [afterTarget]
    rw [hmv, hset, if_pos hdist, hst2, if_neg hprog]
  have hb0 : buildSat 30 (fun _ => 1) (fun _ => vzero) 0 CS2 = CS2b := by
    rw [buildSat]
    rw [if_pos hg, hk]
    dsimp only
    rw [hul]
    rw [if_neg (by simp)]
    rw [hct, hl, ha]
  have hskip1 : buildSat 30 (fun _ => 1) (fun _ => vzero) 1 CS2b = CS2b :=
    buildSat_skip _ _ _ _ _
      (by simp [CS2b, CS2a, SimState.getSat, beaconSat])
  have hskip2 : buildSat 30 (fun _ => 1) (fun _ => vzero) 2 CS2b = CS2b :=
    buildSat_skip _ _ _ _ _
      (by simp [CS2b, CS2a, SimState.getSat, beaconSat])
  have hbs : buildingStep 30 (fun _ => 1) (fun _ => vzero) CS2 = CS2b := by
    rw [buildingStep]
    rw [hsw]
    rw [show CS2.sats.length = 3 from rfl]
    rw [show List.range 3 = [0, 1, 2] from by simp [List.range_succ]]
    simp only [List.foldl_cons, List.foldl_nil]
    rw [hb0, hskip1, hskip2]
  refine ⟨?_, ?_, ?_, hbs, ?_, ?_, ?_⟩
  · simp [CS2, SimState.getSat, builderSat]
  · simp [CS2, SimState.getTgt]
  · simp [CS2, SimState.getTgt]
  · simp [CS2b, SimState.getTgt]
  · simp [CS2b, SimState.getTgt]
  · simp [CS2b, CS2a, SimState.getSat]

/-! # Collision-check characterization (claim C7) -/

theorem collisionScan_iff (st : SimState) (sIdx tIdx : ℕ) (myDist : ℝ) :
    ∀ (l : List Satellite) (k : ℕ),
    collisionScan st sIdx tIdx myDist k l ↔
      ∃ m, m < l.length ∧ (l.getD m defaultSat).status = .builder ∧
        k + m ≠ sIdx ∧
        (l.getD m defaultSat).target = some (.tgt tIdx) ∧
        mag ((l.getD m defaultSat).pos - (st.getTgt tIdx).pos) < myDist := by
  intro l
  induction l with
  | nil =>
      intro k
      simp [collisionScan]
  | cons o rest ih =>
      intro k
      rw [collisionScan, ih (k + 1)]
      constructor
      · rintro (⟨hb, hk, ht, hd⟩ | ⟨m, hm, hb, hkm, ht, hd⟩)
        · exact ⟨0, by simp, by simpa using hb, by simpa using hk,
            by simpa using ht, by simpa using hd⟩
        · refine ⟨m + 1, by simpa using hm, by simpa using hb, ?_,
            by simpa using ht, by simpa using hd⟩
          intro h
          exact hkm (by omega)
      · rintro ⟨m, hm, hb, hkm, ht, hd⟩
        cases m with
        | zero =>
            left
            exact ⟨by simpa using hb, by simpa using hkm,
              by simpa using ht, by simpa using hd⟩
        | succ m =>
            right
            refine ⟨m, by simpa using hm, by simpa using hb, ?_,
              by simpa using ht, by simpa using hd⟩
            intro h
            exact hkm (by omega)

theorem checkCollisionPath_iff (st : SimState) (sIdx tIdx : ℕ) :
    checkCollisionPath st sIdx tIdx ↔
      ∃ m, m < st.sats.length ∧ (st.getSat m).status = .builder ∧
        m ≠ sIdx ∧ (st.getSat m).target = some (.tgt tIdx) ∧
        mag ((st.getSat m).pos - (st.getTgt tIdx).pos) <
          mag ((st.getSat sIdx).pos - (st.getTgt tIdx).pos) := by
  rw [checkCollisionPath, collisionScan_iff st sIdx tIdx _ st.sats 0]
  constructor <;> rintro ⟨m, hm, hb, hk, ht, hd⟩ <;>
    exact ⟨m, hm, hb, by simpa using hk, ht, hd⟩

/-- Claim C7 (corrected): the collision check sees exactly the builders
whose own target reference is already committed to the contested point
from a strictly shorter distance; when the nearer builder is already en
route (`CS7b`), the farther builder's check fires and it falls back to its
next-best candidate. The claim's order-independence is refuted by
`C7_counterexample`: in a same-pass fresh contention neither reference is
committed yet, so the first-processed (farther) builder wins the lock. -/
theorem C7_contention :
    (∀ st sIdx tIdx, checkCollisionPath st sIdx tIdx ↔
      ∃ m, m < st.sats.length ∧ (st.getSat m).status = .builder ∧
        m ≠ sIdx ∧ (st.getSat m).target = some (.tgt tIdx) ∧
        mag ((st.getSat m).pos - (st.getTgt tIdx).pos) <
          mag ((st.getSat sIdx).pos - (st.getTgt tIdx).pos)) ∧
    (CS7b.getSat 1).target = some (.tgt 0) ∧
    mag ((CS7b.getSat 1).pos - (CS7b.getTgt 0).pos) <
      mag ((CS7b.getSat 0).pos - (CS7b.getTgt 0).pos) ∧
    checkCollisionPath CS7b 0 0 ∧
    chooseTarget CS7b 0 = 1 := by
  have s100 : Real.sqrt (1 / 100) = 1 / 10 :=
    sqrt_eval (by norm_num) (by norm_num)
  have s25 : Real.sqrt (1 / 25) = 1 / 5 :=
    sqrt_eval (by norm_num) (by norm_num)
  have hmag : mag ((CS7b.getSat 1).pos - (CS7b.getTgt 0).pos) <
      mag ((CS7b.getSat 0).pos - (CS7b.getTgt 0).pos) := by
    norm_num [CS7b, SimState.getSat, SimState.getTgt, builderSat, s100, s25]
  have hcp : checkCollisionPath CS7b 0 0 := by
    rw [checkCollisionPath_iff]
    refine ⟨1, by simp [CS7b], ?_, by norm_num, ?_, hmag⟩
    · simp [CS7b, SimState.getSat, builderSat]
    · simp [CS7b, SimState.getSat, builderSat]
  have hcc1 : ¬ checkCollisionPath CS7b 0 1 := by
    rw [checkCollisionPath_iff]
    rintro ⟨m, hm, hb, hk, ht, hd⟩
    rcases m with _ | _ | m
    · exact hk rfl
    · simp [CS7b, SimState.getSat, builderSat] at ht
    · simp [CS7b] at hm
      omega
  have hul : unbuiltList CS7b = [0, 1] := by
    norm_num [unbuiltList, filterP, CS7b, SimState.getTgt, List.range_succ]
  have hsc : scoreOf CS7b 0 1 ≤ scoreOf CS7b 0 0 := by
    norm_num [scoreOf, CS7b, SimState.getSat, SimState.getTgt, builderSat,
      PRIORITY_WEIGHT, DISTANCE_WEIGHT, s100, s25]
  have hrc : rankedCandidates CS7b 0 [0, 1] = [0, 1] := by
    simp [rankedCandidates, List.insertionSort, List.orderedInsert, hsc]
  have hfu : firstUncontested CS7b 0 [0, 1] = some 1 := by
    rw [firstUncontested, if_pos hcp, firstUncontested, if_neg hcc1]
  have hct : chooseTarget CS7b 0 = 1 := by
    rw [chooseTarget]
    rw [hul, hrc, hfu]
  exact ⟨checkCollisionPath_iff, by simp [CS7b, SimState.getSat, builderSat],
    hmag, hcp, hct⟩

/-- Claim C7, counterexample to the order-independence as stated: in `CS7`
both builders rank target 0 first and builder 1 is strictly nearer, but
neither target reference is committed yet, so the collision check sees
nothing and the first-processed, farther builder 0 acquires the lock on
target 0; builder 1 is left with target 1. -/
theorem C7_counterexample :
    rankedCandidates CS7 0 (unbuiltList CS7) = [0, 1] ∧
    rankedCandidates CS7 1 (unbuiltList CS7) = [0, 1] ∧
    mag ((CS7.getSat 1).pos - (CS7.getTgt 0).pos) <
      mag ((CS7.getSat 0).pos - (CS7.getTgt 0).pos) ∧
    buildingStep 0 (fun _ => 1) (fun _ => vzero) CS7 = CS7e ∧
    (CS7e.getTgt 0).locked = true ∧
    (CS7e.getTgt 0).builder = some 0 ∧
    (CS7e.getSat 0).target = some (.tgt 0) ∧
    (CS7e.getTgt 1).builder = some 1 := by
  have s100 : Real.sqrt (1 / 100) = 1 / 10 :=
    sqrt_eval (by norm_num) (by norm_num)
  have s25 : Real.sqrt (1 / 25) = 1 / 5 :=
    sqrt_eval (by norm_num) (by norm_num)
  have hul : unbuiltList CS7 = [0, 1] := by
    norm_num [unbuiltList, filterP, CS7, SimState.getTgt, List.range_succ]
  have hsc0 : scoreOf CS7 0 1 ≤ scoreOf CS7 0 0 := by
    norm_num [scoreOf, CS7, SimState.getSat, SimState.getTgt, builderSat,
      PRIORITY_WEIGHT, DISTANCE_WEIGHT, s100, s25]
  have hsc1 : scoreOf CS7 1 1 ≤ scoreOf CS7 1 0 := by
    norm_num [scoreOf, CS7, SimState.getSat, SimState.getTgt, builderSat,
      PRIORITY_WEIGHT, DISTANCE_WEIGHT, s100, s25]
  have hrc0 : rankedCandidates CS7 0 [0, 1] = [0, 1] := by
    simp [rankedCandidates, List.insertionSort, List.orderedInsert, hsc0]
  have hrc1 : rankedCandidates CS7 1 [0, 1] = [0, 1] := by
    simp [rankedCandidates, List.insertionSort, List.orderedInsert, hsc1]
  have hmagc : mag ((CS7.getSat 1).pos - (CS7.getTgt 0).pos) <
      mag ((CS7.getSat 0).pos - (CS7.getTgt 0).pos) := by
    norm_num [CS7, SimState.getSat, SimState.getTgt, builderSat, s100, s25]
  have hcp0 : ¬ checkCollisionPath CS7 0 0 := by
    rw [checkCollisionPath_iff]
    rintro ⟨m, hm, hb, hk, ht, hd⟩
    rcases m with _ | _ | m
    · exact hk rfl
    · simp [CS7, SimState.getSat, builderSat] at ht
    · simp [CS7] at hm
      omega
  have hfu0 : firstUncontested CS7 0 [0, 1] = some 0 := by
    rw [firstUncontested, if_neg hcp0]
  have hct0 : chooseTarget CS7 0 = 0 := by
    rw [chooseTarget]
    rw [hul, hrc0, hfu0]
  have hsw : sweepLocks CS7 = CS7 := by
    simp [sweepLocks, CS7, SimState.getSat, builderSat]
  have hg0 : (CS7.getSat 0).status = .builder ∧
      (CS7.getSat 0).beacon_pair ≠ none := by
    simp [CS7, SimState.getSat, builderSat]
  have hk0 : keepTarget 0 CS7 0 = none := by
    simp [keepTarget, CS7, SimState.getSat, builderSat]
  have hl0 : lockTarget 0 CS7 0 0 = CS7a := by
    simp [lockTarget, CS7, CS7a, SimState.setTgt, SimState.setSat,
      SimState.getTgt, SimState.getSat, builderSat, List.set]
  have hmv0 : moveTo (CS7a.getSat 0) ((CS7a.getTgt 0).pos) =
      CS7a.getSat 0 := by
    norm_num [moveTo, CS7a, SimState.getSat, SimState.getTgt, builderSat,
      s25]
  have hset0 : CS7a.setSat 0 (CS7a.getSat 0) = CS7a := by
    simp [CS7a, SimState.setSat, SimState.getSat, List.set]
  have hdist0 : mag ((CS7a.getSat 0).pos - (CS7a.getTgt 0).pos) <
      ARRIVAL_RADIUS := by
    norm_num [CS7a, SimState.getSat, SimState.getTgt, builderSat, s25,
      ARRIVAL_RADIUS]
  have hst20 : CS7a.setTgt 0
      { CS7a.getTgt 0 with
        build_progress := (CS7a.getTgt 0).build_progress + 5 / 100 } =
        CS7c := by
    simp [CS7a, CS7c, SimState.setTgt, SimState.getTgt, builderSat, List.set]
  have hprog0 : ¬ (CS7c.getTgt 0).build_progress ≥ 1 := by
    norm_num [CS7c, SimState.getTgt]
  have ha0 : afterTarget (fun _ => 1) (fun _ => vzero) 0 0 CS7a = CS7c := by
    rw [afterTarget]
    rw [hmv0, hset0, if_pos hdist0, hst20, if_neg hprog0]
  have hb0 : buildSat 0 (fun _ => 1) (fun _ => vzero) 0 CS7 = CS7c := by
    rw [buildSat]
    rw [if_pos hg0, hk0]
    dsimp only
    rw [hul]
    rw [if_neg (by simp)]
    rw [hct0, hl0, ha0]
  have hg1 : (CS7c.getSat 1).status = .builder ∧
      (CS7c.getSat 1).beacon_pair ≠ none := by
    simp [CS7c, CS7a, SimState.getSat, builderSat]
  have hk1 : keepTarget 0 CS7c 1 = none := by
    simp [keepTarget, CS7c, CS7a, SimState.getSat, builderSat]
  have hul1 : unbuiltList CS7c = [1] := by
    norm_num [unbuiltList, filterP, CS7c, SimState.getTgt, List.range_succ]
  have hrc1c : rankedCandidates CS7c 1 [1] = [1] := by
    simp [rankedCandidates, List.insertionSort]
  have hcp1 : ¬ checkCollisionPath CS7c 1 1 := by
    rw [checkCollisionPath_iff]
    rintro ⟨m, hm, hb, hk, ht, hd⟩
    rcases m with _ | _ | m
    · simp [CS7c, CS7a, SimState.getSat, builderSat] at ht
    · exact hk rfl
    · simp [CS7c, CS7a] at hm
      omega
  have hfu1 : firstUncontested CS7c 1 [1] = some 1 := by
    rw [firstUncontested, if_neg hcp1]
  have hct1 : chooseTarget CS7c 1 = 1 := by
    rw [chooseTarget]
    rw [hul1, hrc1c, hfu1]
  have hl1 : lockTarget 0 CS7c 1 1 = CS7d := by
    simp [lockTarget, CS7c, CS7a, CS7d, SimState.setTgt, SimState.setSat,
      SimState.getTgt, SimState.getSat, builderSat, List.set]
  have hmv1 : moveTo (CS7d.getSat 1) ((CS7d.getTgt 1).pos) =
      CS7d.getSat 1 := by
    norm_num [moveTo, CS7d, SimState.getSat, SimState.getTgt, builderSat,
      s25]
  have hset1 : CS7d.setSat 1 (CS7d.getSat 1) = CS7d := by
    simp [CS7d, SimState.setSat, SimState.getSat, List.set]
  have hdist1 : mag ((CS7d.getSat 1).pos - (CS7d.getTgt 1).pos) <
      ARRIVAL_RADIUS := by
    norm_num [CS7d, SimState.getSat, SimState.getTgt, builderSat, s25,
      ARRIVAL_RADIUS]
  have hst21 : CS7d.setTgt 1
      { CS7d.getTgt 1 with
        build_progress := (CS7d.getTgt 1).build_progress + 5 / 100 } =
        CS7e := by
    simp [CS7d, CS7e, SimState.setTgt, SimState.getTgt, builderSat, List.set]
  have hprog1 : ¬ (CS7e.getTgt 1).build_progress ≥ 1 := by
    norm_num [CS7e, SimState.getTgt]
  have ha1 : afterTarget (fun _ => 1) (fun _ => vzero) 1 1 CS7d = CS7e := by
    rw [afterTarget]
    rw [hmv1, hset1, if_pos hdist1, hst21, if_neg hprog1]
  have hb1 : buildSat 0 (fun _ => 1) (fun _ => vzero) 1 CS7c = CS7e := by
    rw [buildSat]
    rw [if_pos hg1, hk1]
    dsimp only
    rw [hul1]
    rw [if_neg (by simp)]
    rw [hct1, hl1, ha1]
  have hbs : buildingStep 0 (fun _ => 1) (fun _ => vzero) CS7 = CS7e := by
    rw [buildingStep]
    rw [hsw]
    rw [show CS7.sats.length = 2 from rfl]
    rw [show List.range 2 = [0, 1] from by simp [List.range_succ]]
    simp only [List.foldl_cons, List.foldl_nil]
    rw [hb0, hb1]
  refine ⟨by rw [hul]; exact hrc0, by rw [hul]; exact hrc1, hmagc, hbs,
    ?_, ?_, ?_, ?_⟩
  · simp [CS7e, SimState.getTgt]
  · simp [CS7e, SimState.getTgt]
  · simp [CS7e, CS7d, SimState.getSat, builderSat]
  · simp [CS7e, SimState.getTgt]

/-! # Fuel upper-bound preservation (claim C1) -/

theorem TLOW_charge_nonneg : (0 : ℝ) ≤ T_LOW * (2 / 10) := by
  rw [T_LOW]
  norm_num

theorem FuelUB_wStatus (u : SimState) (x : ℕ) (stt : Status) (h : FuelUB u) :
    FuelUB (u.setSat x { u.getSat x with status := stt }) :=
  FuelUB_setSat _ _ _ h (h x)

theorem FuelUB_wRole (u : SimState) (x : ℕ) (ro : Option Role)
    (h : FuelUB u) : FuelUB (u.setSat x { u.getSat x with role := ro }) :=
  FuelUB_setSat _ _ _ h (h x)

theorem FuelUB_wVel (u : SimState) (x : ℕ) (v : Vec3) (h : FuelUB u) :
    FuelUB (u.setSat x { u.getSat x with vel := v }) :=
  FuelUB_setSat _ _ _ h (h x)

theorem FuelUB_wPair (u : SimState) (x : ℕ) (bp : Option (ℕ × ℕ))
    (h : FuelUB u) :
    FuelUB (u.setSat x { u.getSat x with beacon_pair := bp }) :=
  FuelUB_setSat _ _ _ h (h x)

theorem FuelUB_wCharge (u : SimState) (x : ℕ) (c : ℝ) (hc : 0 ≤ c)
    (h : FuelUB u) :
    FuelUB (u.setSat x
      { u.getSat x with fuel := (u.getSat x).fuel - c }) :=
  FuelUB_setSat _ _ _ h
    (show (u.getSat x).fuel - c ≤ F_TOTAL by have := h x; linarith)

theorem FuelUB_wChargeTgt (u : SimState) (x : ℕ) (c : ℝ) (tg : Option Ref)
    (hc : 0 ≤ c) (h : FuelUB u) :
    FuelUB (u.setSat x
      { u.getSat x with
        fuel := (u.getSat x).fuel - c
        target := tg }) :=
  FuelUB_setSat _ _ _ h
    (show (u.getSat x).fuel - c ≤ F_TOTAL by have := h x; linarith)

theorem FuelUB_wStatPosVel (u : SimState) (x : ℕ) (stt : Status) (p v : Vec3)
    (h : FuelUB u) :
    FuelUB (u.setSat x
      { u.getSat x with
        status := stt
        pos := p
        vel := v }) :=
  FuelUB_setSat _ _ _ h (h x)

theorem FuelUB_wStatRoleVel (u : SimState) (x : ℕ) (stt : Status)
    (ro : Option Role) (v : Vec3) (h : FuelUB u) :
    FuelUB (u.setSat x
      { u.getSat x with
        status := stt
        role := ro
        vel := v }) :=
  FuelUB_setSat _ _ _ h (h x)

theorem FuelUB_wMinAdd (u : SimState) (x : ℕ) (t : ℝ) (h : FuelUB u) :
    FuelUB (u.setSat x
      { u.getSat x with fuel := min ((u.getSat x).fuel + t) F_TOTAL }) :=
  FuelUB_setSat _ _ _ h
    (show min ((u.getSat x).fuel + t) F_TOTAL ≤ F_TOTAL from
      min_le_right _ _)

theorem FuelUB_wMinAddStatus (u : SimState) (x : ℕ) (t : ℝ) (stt : Status)
    (h : FuelUB u) :
    FuelUB (u.setSat x
      { u.getSat x with
        fuel := min ((u.getSat x).fuel + t) F_TOTAL
        status := stt }) :=
  FuelUB_setSat _ _ _ h
    (show min ((u.getSat x).fuel + t) F_TOTAL ≤ F_TOTAL from
      min_le_right _ _)

theorem FuelUB_wTgtRev (u : SimState) (x : ℕ) (tg : Option Ref) (n : ℤ)
    (h : FuelUB u) :
    FuelUB (u.setSat x
      { u.getSat x with
        target := tg
        last_goal_revision := n }) :=
  FuelUB_setSat _ _ _ h (h x)

theorem FuelUB_wPairTgt (u : SimState) (x : ℕ) (bp : Option (ℕ × ℕ))
    (tg : Option Ref) (h : FuelUB u) :
    FuelUB (u.setSat x
      { u.getSat x with
        beacon_pair := bp
        target := tg }) :=
  FuelUB_setSat _ _ _ h (h x)

theorem FuelUB_wMove (u : SimState) (x : ℕ) (p : Vec3) (h : FuelUB u) :
    FuelUB (u.setSat x (moveTo (u.getSat x) p)) :=
  FuelUB_setSat _ _ _ h (by rw [moveTo_fuel]; exact h x)

theorem FuelUB_setTgtP (u : SimState) (t : ℕ) (x : TargetPoint)
    (h : FuelUB u) : FuelUB (u.setTgt t x) := by
  intro j
  rw [getSat_setTgt]
  exact h j

theorem FuelUB_of_sats (st st' : SimState) (he : st'.sats = st.sats)
    (h : FuelUB st) : FuelUB st' := by
  intro j
  have h2 : st'.getSat j = st.getSat j := by
    simp only [SimState.getSat, he]
  rw [h2]
  exact h j

theorem sats_sweepLocks (st : SimState) : (sweepLocks st).sats = st.sats := rfl

theorem stepAll_FuelUB (rvel : ℕ → Vec3) (st : SimState) (h : FuelUB st) :
    FuelUB (stepAll rvel st) := by
  rw [stepAll]
  exact foldl_preserve _ (fun i s hs => stepSat_FuelUB rvel i s hs) _ _ h

theorem ftApply_FuelUB (st : SimState) (s1 s2 s3 : ℕ) (h : FuelUB st) :
    FuelUB (ftApply st s1 s2 s3) := by
  rw [ftApply]
  dsimp only
  repeat' first
    | exact h
    | apply FuelUB_wCharge _ _ _ TLOW_charge_nonneg
    | apply FuelUB_wStatus
    | apply FuelUB_wRole
    | apply FuelUB_wVel
    | apply FuelUB_wPair
    | split

theorem formTriplet_FuelUB (st : SimState) (br : ℝ) (tp sp : ℕ)
    (h : FuelUB st) : FuelUB (formTriplet st br tp sp).1 := by
  rw [formTriplet]
  dsimp only
  split
  · exact h
  · split
    · exact h
    · exact ftApply_FuelUB _ _ _ _ h

theorem refuelBuilder_FuelUB (st : SimState) (b : ℕ) (h : FuelUB st) :
    FuelUB (refuelBuilder st b).1 := by
  rcases hbp : (st.getSat b).beacon_pair with _ | ⟨c, r⟩
  · simp only [refuelBuilder, hbp]
    exact h
  · simp only [refuelBuilder, hbp]
    split
    · split
      · exact h
      · rename_i hpos
        have ht : (0 : ℝ) ≤ shareAmount st (donorOf st c r) :=
          le_of_lt (lt_of_not_le hpos)
        split
        · exact FuelUB_wRole _ _ _ (FuelUB_wRole _ _ _
            (FuelUB_wMinAdd _ _ _ (FuelUB_wCharge _ _ _ ht h)))
        · exact FuelUB_wMinAdd _ _ _ (FuelUB_wCharge _ _ _ ht h)
    · exact h

theorem freeBeaconPair_FuelUB (bvel : ℕ → Vec3) (i : ℕ) (st : SimState)
    (h : FuelUB st) : FuelUB (freeBeaconPair bvel i st) := by
  rcases hbp : (st.getSat i).beacon_pair with _ | ⟨b1, b2⟩
  · simp only [freeBeaconPair, hbp]
    exact h
  · simp only [freeBeaconPair, hbp]
    exact FuelUB_wPair _ _ _ (FuelUB_wStatRoleVel _ _ _ _ _
      (FuelUB_wStatRoleVel _ _ _ _ _ h))

theorem refuelCheck_FuelUB (bvel : ℕ → Vec3) (i : ℕ) (u : SimState)
    (h : FuelUB u) :
    FuelUB (if (u.getSat i).fuel < T_LOW ∧ (u.getSat i).status ≠ .stationed
      then
        (if (refuelBuilder u i).2 = true then (refuelBuilder u i).1
         else freeBeaconPair bvel i ((refuelBuilder u i).1.setSat i
           { (refuelBuilder u i).1.getSat i with status := .returning }))
      else u) := by
  split
  · split
    · exact refuelBuilder_FuelUB _ _ h
    · exact freeBeaconPair_FuelUB _ _ _
        (FuelUB_wStatus _ _ _ (refuelBuilder_FuelUB _ _ h))
  · exact h

theorem completeTarget_FuelUB (sd : ℕ → ℝ) (bvel : ℕ → Vec3) (i t : ℕ)
    (st : SimState) (h : FuelUB st) :
    FuelUB (completeTarget sd bvel i t st) := by
  rw [completeTarget]
  dsimp only
  apply refuelCheck_FuelUB
  split
  · exact freeBeaconPair_FuelUB _ _ _ (FuelUB_wStatPosVel _ _ _ _ _
      (FuelUB_wChargeTgt _ _ 5 _ (by norm_num) (FuelUB_setTgtP _ _ _ h)))
  · exact FuelUB_wChargeTgt _ _ 5 _ (by norm_num) (FuelUB_setTgtP _ _ _ h)

theorem afterTarget_FuelUB (sd : ℕ → ℝ) (bvel : ℕ → Vec3) (i t : ℕ)
    (st : SimState) (h : FuelUB st) :
    FuelUB (afterTarget sd bvel i t st) := by
  rw [afterTarget]
  dsimp only
  split
  · split
    · apply completeTarget_FuelUB
      exact FuelUB_setTgtP _ _ _ (FuelUB_wMove _ _ _ h)
    · exact FuelUB_setTgtP _ _ _ (FuelUB_wMove _ _ _ h)
  · exact FuelUB_wMove _ _ _ h

theorem lockTarget_FuelUB (frame : ℤ) (st : SimState) (i c : ℕ)
    (h : FuelUB st) : FuelUB (lockTarget frame st i c) := by
  rw [lockTarget]
  dsimp only
  exact FuelUB_wTgtRev _ _ _ _ (FuelUB_setTgtP _ _ _ h)

theorem releaseNoTargets_FuelUB (bvel : ℕ → Vec3) (i : ℕ) (st : SimState)
    (h : FuelUB st) : FuelUB (releaseNoTargets bvel i st) := by
  rw [releaseNoTargets]
  dsimp only
  exact FuelUB_wPairTgt _ _ _ _ (freeBeaconPair_FuelUB _ _ _
    (FuelUB_wStatus _ _ _ h))

theorem buildSat_FuelUB (frame : ℤ) (sd : ℕ → ℝ) (bvel : ℕ → Vec3) (i : ℕ)
    (st : SimState) (h : FuelUB st) :
    FuelUB (buildSat frame sd bvel i st) := by
  rw [buildSat]
  split
  · split
    · exact afterTarget_FuelUB _ _ _ _ _ h
    · split
      · exact releaseNoTargets_FuelUB _ _ _ h
      · exact afterTarget_FuelUB _ _ _ _ _ (lockTarget_FuelUB _ _ _ _ h)
  · exact h

theorem buildingStep_FuelUB (frame : ℤ) (sd : ℕ → ℝ) (bvel : ℕ → Vec3)
    (st : SimState) (h : FuelUB st) :
    FuelUB (buildingStep frame sd bvel st) := by
  rw [buildingStep]
  exact foldl_preserve _ (fun i s hs => buildSat_FuelUB frame sd bvel i s hs)
    _ _ (FuelUB_of_sats st _ (sats_sweepLocks st) h)

theorem weakAidOne_FuelUB (w : ℕ) (st : SimState) (h : FuelUB st) :
    FuelUB (weakAidOne w st) := by
  rw [weakAidOne]
  dsimp only
  split
  · exact h
  · split
    · split
      · rename_i htr
        exact FuelUB_wMinAddStatus _ _ _ _
          (FuelUB_wCharge _ _ _ (le_of_lt htr) h)
      · exact h
    · exact h

theorem weakAid_FuelUB (st : SimState) (h : FuelUB st) :
    FuelUB (weakAid st) := by
  rw [weakAid]
  exact foldl_preserve _ (fun w s hs => weakAidOne_FuelUB w s hs) _ _ h

/-- Claim C1 (corrected): the upper half of the fuel invariant holds — one
simulation step of every satellite, triplet formation (formation cost),
builder refuel, the building pass (construction cost and post-completion
refuel) and the weak-agent aid pass all preserve `fuel ≤ F_TOTAL` for
every agent, every transfer being capped at `F_TOTAL`. The lower half
`0 ≤ fuel` is refuted by `C1_counterexample`: drains are unclamped and a
dead agent's fuel keeps falling below zero. -/
theorem C1_fuel_bounds (rvel bvel : ℕ → Vec3) (sd : ℕ → ℝ) (frame : ℤ)
    (br : ℝ) (tp sp b : ℕ) (st : SimState) (h : FuelUB st) :
    FuelUB (stepAll rvel st) ∧
    FuelUB (formTriplet st br tp sp).1 ∧
    FuelUB (refuelBuilder st b).1 ∧
    FuelUB (buildingStep frame sd bvel st) ∧
    FuelUB (weakAid st) :=
  ⟨stepAll_FuelUB rvel st h, formTriplet_FuelUB st br tp sp h,
   refuelBuilder_FuelUB st b h, buildingStep_FuelUB frame sd bvel st h,
   weakAid_FuelUB st h⟩

/-- Claim C1, witness: the healthy state `CW` satisfies the fuel upper
bound, and stepping it preserves the bound. -/
theorem C1_witness :
    FuelUB CW ∧ ((stepAll (fun _ => vzero) CW).getSat 0).fuel ≤ F_TOTAL := by
  have hub : FuelUB CW := by
    intro j
    rcases j with _ | _ | j <;>
      simp [CW, SimState.getSat, beaconSat, freeSat, defaultSat, F_TOTAL,
        List.getD] <;>
      norm_num
  exact ⟨hub, (C1_fuel_bounds (fun _ => vzero) (fun _ => vzero) (fun _ => 1)
    0 8 0 0 0 CW hub).1 0⟩

/-! # Beacon-invariant preservation (claim C5) -/

theorem BeaconOK_wFuel (u : SimState) (x : ℕ) (f : ℝ) (h : BeaconOK u) :
    BeaconOK (u.setSat x { u.getSat x with fuel := f }) :=
  BeaconOK_setSat _ _ _ h (fun hb => h x hb)

theorem BeaconOK_wRole (u : SimState) (x : ℕ) (ro : Option Role)
    (hro : ro ≠ none) (h : BeaconOK u) :
    BeaconOK (u.setSat x { u.getSat x with role := ro }) :=
  BeaconOK_setSat _ _ _ h (fun hb => ⟨(h x hb).1, hro⟩)

theorem BeaconOK_wFuelStatus (u : SimState) (x : ℕ) (f : ℝ) (stt : Status)
    (hstt : stt ≠ .beacon) (h : BeaconOK u) :
    BeaconOK (u.setSat x
      { u.getSat x with
        fuel := f
        status := stt }) :=
  BeaconOK_setSat _ _ _ h (fun hb => absurd hb hstt)

theorem BeaconOK_wStatusTgt (u : SimState) (x : ℕ) (stt : Status)
    (tg : Option Ref) (hstt : stt ≠ .beacon) (h : BeaconOK u) :
    BeaconOK (u.setSat x
      { u.getSat x with
        status := stt
        target := tg }) :=
  BeaconOK_setSat _ _ _ h (fun hb => absurd hb hstt)

theorem BeaconOK_wStatusVel (u : SimState) (x : ℕ) (stt : Status) (v : Vec3)
    (hstt : stt ≠ .beacon) (h : BeaconOK u) :
    BeaconOK (u.setSat x
      { u.getSat x with
        status := stt
        vel := v }) :=
  BeaconOK_setSat _ _ _ h (fun hb => absurd hb hstt)

theorem BeaconOK_wSRV (u : SimState) (x : ℕ) (stt : Status)
    (ro : Option Role) (v : Vec3) (hstt : stt ≠ .beacon) (h : BeaconOK u) :
    BeaconOK (u.setSat x
      { u.getSat x with
        status := stt
        role := ro
        vel := v }) :=
  BeaconOK_setSat _ _ _ h (fun hb => absurd hb hstt)

theorem BeaconOK_wStatusPair (u : SimState) (x : ℕ) (stt : Status)
    (bp : Option (ℕ × ℕ)) (hstt : stt ≠ .beacon) (h : BeaconOK u) :
    BeaconOK (u.setSat x
      { u.getSat x with
        status := stt
        beacon_pair := bp }) :=
  BeaconOK_setSat _ _ _ h (fun hb => absurd hb hstt)

theorem role_wFuel (u : SimState) (x : ℕ) (f : ℝ) (k : ℕ) :
    ((u.setSat x { u.getSat x with fuel := f }).getSat k).role =
      (u.getSat k).role := by
  rw [getSat_setSat]
  split
  · rename_i hc
    rcases hc with ⟨rfl, -⟩
    rfl
  · rfl

theorem rescuePhase_BeaconOK (rvel : ℕ → Vec3) (i : ℕ) (st : SimState)
    (s5 : Satellite) (h : BeaconOK st)
    (hs5 : s5.status = .beacon → s5.vel = vzero ∧ s5.role ≠ none) :
    BeaconOK (rescuePhase rvel i st s5) := by
  rw [rescuePhase]
  split
  · split
    · split
      · dsimp only
        split
        · apply BeaconOK_setSat
          · apply BeaconOK_setSat _ _ _ h
            split
            · intro hb
              exact absurd hb (by simp)
            · intro hb
              exact h _ hb
          · intro hb
            exact absurd hb (by simp)
        · exact BeaconOK_setSat _ _ _ h hs5
      · exact BeaconOK_setSat _ _ _ h hs5
    · exact BeaconOK_setSat _ _ _ h hs5
  · exact BeaconOK_setSat _ _ _ h hs5

theorem stepSat_BeaconOK (rvel : ℕ → Vec3) (i : ℕ) (st : SimState)
    (h : BeaconOK st) : BeaconOK (stepSat rvel i st) := by
  rw [stepSat]
  dsimp only
  split
  · rename_i hstat
    apply BeaconOK_setSat _ _ _ h
    intro hb
    exfalso
    revert hb
    split
    · intro hb
      simp at hb
    · intro hb
      have hb2 : (st.getSat i).status = .beacon := hb
      rw [hstat] at hb2
      simp at hb2
  · split
    · apply BeaconOK_setSat _ _ _ h
      intro hb
      revert hb
      split
      · intro hb
        simp at hb
      · intro hb
        exact h i hb
    · rename_i hs1 hs2
      apply rescuePhase_BeaconOK _ _ _ _ h
      intro hb
      exfalso
      apply drainTrans_not_beacon rvel i (reflect (moveStep st i)) ?_ hb
      intro hrb
      have h2 : (moveStep st i).status = .beacon := hrb
      rw [moveStep_status] at h2
      exact hs2 h2

theorem stepAll_BeaconOK (rvel : ℕ → Vec3) (st : SimState)
    (h : BeaconOK st) : BeaconOK (stepAll rvel st) := by
  rw [stepAll]
  exact foldl_preserve _ (fun i s hs => stepSat_BeaconOK rvel i s hs) _ _ h

theorem formTriplet_BeaconOK (st : SimState) (br : ℝ) (tp sp : ℕ)
    (h : BeaconOK st) : BeaconOK (formTriplet st br tp sp).1 := by
  by_cases hfree : (eligibleFree st).length < 3
  · rw [formTriplet_fail1 st br tp sp hfree]
    exact h
  · by_cases hnb : (ftNeighbors st br tp sp).length < 2
    · rw [formTriplet_fail2 st br tp sp hfree hnb]
      exact h
    · obtain ⟨hd12, hd13, hd23, h1, h2, h3, -, -⟩ :=
        ftTriple_facts st br tp sp hfree hnb
      rw [formTriplet_succ st br tp sp hfree hnb]
      dsimp only
      intro j
      by_cases hj1 : j = ftSeed st br tp sp
      · subst hj1
        rw [ftApply_sat1 st _ _ _ hd12 hd13 hd23 h1 h2 h3]
        intro hb
        simp at hb
      · by_cases hj2 : j = (ftSorted st br tp sp).getD 0 0
        · subst hj2
          rw [ftApply_sat2 st _ _ _ hd12 hd13 hd23 h1 h2 h3]
          exact fun _ => ⟨rfl, by simp⟩
        · by_cases hj3 : j = (ftSorted st br tp sp).getD 1 0
          · subst hj3
            rw [ftApply_sat3 st _ _ _ hd12 hd13 hd23 h1 h2 h3]
            exact fun _ => ⟨rfl, by simp⟩
          · rw [ftApply_frame st _ _ _ j hj1 hj2 hj3]
            exact h j

theorem refuelBuilder_BeaconOK (st : SimState) (b c r : ℕ) (h : BeaconOK st)
    (hbp : (st.getSat b).beacon_pair = some (c, r))
    (hc : (st.getSat c).role ≠ none) (hr : (st.getSat r).role ≠ none) :
    BeaconOK (refuelBuilder st b).1 := by
  simp only [refuelBuilder, hbp]
  split
  · split
    · exact h
    · split
      · apply BeaconOK_wRole
        · rw [role_wFuel, role_wFuel]
          exact hc
        · apply BeaconOK_wRole
          · rw [role_wFuel, role_wFuel]
            exact hr
          · exact BeaconOK_wFuel _ _ _ (BeaconOK_wFuel _ _ _ h)
      · exact BeaconOK_wFuel _ _ _ (BeaconOK_wFuel _ _ _ h)
  · exact h

theorem weakAidOne_BeaconOK (w : ℕ) (st : SimState) (h : BeaconOK st) :
    BeaconOK (weakAidOne w st) := by
  rw [weakAidOne]
  dsimp only
  split
  · exact h
  · split
    · split
      · exact BeaconOK_wFuelStatus _ _ _ _ (by simp)
          (BeaconOK_wFuel _ _ _ h)
      · exact h
    · exact h

theorem weakAid_BeaconOK (st : SimState) (h : BeaconOK st) :
    BeaconOK (weakAid st) := by
  rw [weakAid]
  exact foldl_preserve _ (fun w s hs => weakAidOne_BeaconOK w s hs) _ _ h

theorem forceRestructure_BeaconOK (bvel : ℕ → Vec3) (samp : List ℕ)
    (st : SimState) (h : BeaconOK st) :
    BeaconOK (forceRestructure bvel samp st) := by
  rw [forceRestructure]
  dsimp only
  split
  · exact h
  · refine foldl_preserve _ ?_ _ _ h
    intro b acc hacc
    rcases hbp : (acc.getSat b).beacon_pair with _ | ⟨c, r⟩
    · simp only [hbp]
      exact BeaconOK_wStatusPair _ _ _ _ (by simp) hacc
    · simp only [hbp]
      exact BeaconOK_wStatusPair _ _ _ _ (by simp)
        (BeaconOK_wSRV _ _ _ _ _ (by simp)
          (BeaconOK_wSRV _ _ _ _ _ (by simp) hacc))

theorem rescueAssign_BeaconOK :
    ∀ (vs freeL : List ℕ) (st : SimState), BeaconOK st →
      BeaconOK (rescueAssign vs freeL st)
  | [], _, _, h => h
  | _ :: _, [], _, h => h
  | v :: vs, f :: fs, st, h => by
      rw [rescueAssign]
      · split
        · exact h
        · exact rescueAssign_BeaconOK vs _ _
            (BeaconOK_wStatusTgt _ _ _ _ (by simp) h)
      · simp

theorem prioritizeRescue_BeaconOK (st : SimState) (h : BeaconOK st) :
    BeaconOK (prioritizeRescue st) := by
  rw [prioritizeRescue]
  exact rescueAssign_BeaconOK _ _ _ h

theorem reactivateStationed_BeaconOK (bvel : ℕ → Vec3) (st : SimState)
    (h : BeaconOK st) : BeaconOK (reactivateStationed bvel st) := by
  rw [reactivateStationed]
  dsimp only
  exact foldl_preserve _
    (fun i s hs => BeaconOK_wStatusVel _ _ _ _ (by simp) hs) _ _ h

theorem pullFold_BeaconOK (st : SimState) :
    ∀ (l : List (ℕ × ℕ)), (∀ p ∈ l, (st.getSat p.1).status ≠ .beacon) →
      ∀ (acc : SimState), BeaconOK acc →
      (∀ k, (acc.getSat k).status = (st.getSat k).status) →
      BeaconOK (l.foldl (fun a p =>
        a.setSat p.1
          { a.getSat p.1 with
            vel := smul (6 / 10) (a.getSat p.1).vel +
              smul (4 / 10) (vnorm ((st.getTgt p.2).pos -
                (a.getSat p.1).pos)) }) acc) := by
  intro l
  induction l with
  | nil =>
      intro _ acc hb _
      exact hb
  | cons p tl ih =>
      intro hne acc hb hstat
      rw [List.foldl_cons]
      refine ih (fun q hq => hne q (List.mem_cons_of_mem _ hq)) _ ?_ ?_
      · apply BeaconOK_setSat _ _ _ hb
        intro hbe
        exfalso
        have hb1 : (acc.getSat p.1).status = .beacon := hbe
        rw [hstat p.1] at hb1
        exact hne p (List.mem_cons_self _ _) hb1
      · intro k
        rw [getSat_setSat]
        split
        · rename_i hcnd
          rcases hcnd with ⟨rfl, -⟩
          exact hstat p.1
        · exact hstat k

theorem pullTowardTargets_BeaconOK (sf : List ℕ) (st : SimState)
    (h : BeaconOK st) (hsf : ∀ k ∈ sf, (st.getSat k).status ≠ .beacon) :
    BeaconOK (pullTowardTargets sf st) := by
  rw [pullTowardTargets]
  dsimp only
  split
  · exact h
  · refine pullFold_BeaconOK st _ ?_ st h (fun k => rfl)
    intro p hp
    rcases p with ⟨a, b⟩
    exact hsf a (List.take_subset _ _ (List.mem_zip hp).1)

/-- Claim C5 (confirmed): every operation keeps the beacon invariant —
zero velocity and an assigned role for every agent in status beacon. The
per-tick step re-checks nothing but never writes a beacon's velocity or
role; formation zeroes the new beacons' velocities and assigns both
roles; the refuel role swap exchanges the two non-null pair roles; the
aid, restructure, rescue-assignment, reactivation and pull passes only
touch beacons by simultaneously freeing them. The pull pass acts on the
free list, stated here as the hypothesis that the pulled indices are not
beacons. -/
theorem C5_beacon_invariant :
    (∀ (rvel : ℕ → Vec3) (st : SimState), BeaconOK st →
      BeaconOK (stepAll rvel st)) ∧
    (∀ (st : SimState) (br : ℝ) (tp sp : ℕ), BeaconOK st →
      BeaconOK (formTriplet st br tp sp).1) ∧
    (∀ (st : SimState) (b c r : ℕ), BeaconOK st →
      (st.getSat b).beacon_pair = some (c, r) →
      (st.getSat c).role ≠ none → (st.getSat r).role ≠ none →
      BeaconOK (refuelBuilder st b).1) ∧
    (∀ st : SimState, BeaconOK st → BeaconOK (weakAid st)) ∧
    (∀ (bvel : ℕ → Vec3) (samp : List ℕ) (st : SimState), BeaconOK st →
      BeaconOK (forceRestructure bvel samp st)) ∧
    (∀ st : SimState, BeaconOK st → BeaconOK (prioritizeRescue st)) ∧
    (∀ (bvel : ℕ → Vec3) (st : SimState), BeaconOK st →
      BeaconOK (reactivateStationed bvel st)) ∧
    (∀ (sf : List ℕ) (st : SimState), BeaconOK st →
      (∀ k ∈ sf, (st.getSat k).status ≠ .beacon) →
      BeaconOK (pullTowardTargets sf st)) :=
  ⟨fun rvel st h => stepAll_BeaconOK rvel st h,
   fun st br tp sp h => formTriplet_BeaconOK st br tp sp h,
   fun st b c r h hbp hc hr => refuelBuilder_BeaconOK st b c r h hbp hc hr,
   fun st h => weakAid_BeaconOK st h,
   fun bvel samp st h => forceRestructure_BeaconOK bvel samp st h,
   fun st h => prioritizeRescue_BeaconOK st h,
   fun bvel st h => reactivateStationed_BeaconOK bvel st h,
   fun sf st h hsf => pullTowardTargets_BeaconOK sf st h hsf⟩

/-- Claim C5, witness: the healthy state `CW` (one commander beacon at
rest, one free agent) satisfies the invariant and keeps it across a full
step of every satellite. -/
theorem C5_witness :
    BeaconOK CW ∧ BeaconOK (stepAll (fun _ => vzero) CW) := by
  have hb : BeaconOK CW := by
    intro j
    rcases j with _ | _ | j <;>
      simp [CW, SimState.getSat, beaconSat, freeSat, defaultSat, List.getD]
  exact ⟨hb, C5_beacon_invariant.1 (fun _ => vzero) CW hb⟩

end Swarm
